import Mathlib

/-!
Verification of the weekly trip-planning optimization service.

This file shallowly embeds the planning core of the service
(`solver/constraints.py`, `solver/optimizer.py`, `solver/clustering.py`,
`solver/week0.py`, `solver/infeasibility.py`, `solver/scoring.py`,
`solver/lookahead.py`, `solver/distance_matrix.py`, `solver/data_loader.py`)
and proves or refutes the stated properties about it.

Modelling conventions:
- Python floats are modelled as rationals (`ℚ`) except for the haversine
  fallback formula, which uses real trigonometric functions and is modelled
  over `ℝ`.
- Python's `round(x, n)` (round-half-to-even) is modelled exactly by
  `bankersRound`.
- Python sets whose only observable operations are membership and size are
  modelled as duplicate-free lists built with `insertNew`.
- Calls into external systems (the OR-Tools TSP solver, the Google Maps
  provider, the wall clock) are modelled as explicit oracle parameters or,
  for the clock, as a constant-zero elapsed time, so that every embedded
  control path corresponds to a possible run of the code.
-/

namespace TripPlanner

/-- Python's `round` to an integer: round half to even (banker's rounding). -/
def bankersRound {α : Type} [LinearOrderedField α] [FloorRing α] (q : α) : ℤ :=
  if q - ⌊q⌋ < 1/2 then ⌊q⌋
  else if 1/2 < q - ⌊q⌋ then ⌊q⌋ + 1
  else if ⌊q⌋ % 2 == 0 then ⌊q⌋ else ⌊q⌋ + 1

/-- Python's `round(x, 1)`. -/
def roundTo1 {α : Type} [LinearOrderedField α] [FloorRing α] (q : α) : α :=
  (bankersRound (q * 10) : α) / 10

/-- Python's `round(x, 2)`. -/
def roundTo2 {α : Type} [LinearOrderedField α] [FloorRing α] (q : α) : α :=
  (bankersRound (q * 100) : α) / 100

/-- Python's `round(x, 6)`, used by `LatLng.__eq__` and `LatLng.__hash__`. -/
def round6 (q : ℚ) : ℚ :=
  (bankersRound (q * 1000000) : ℚ) / 1000000

theorem bankersRound_mem {α : Type} [LinearOrderedField α] [FloorRing α] (q : α) :
    bankersRound q = ⌊q⌋ ∨ bankersRound q = ⌊q⌋ + 1 := by
  unfold bankersRound
  split
  · exact Or.inl rfl
  · split
    · exact Or.inr rfl
    · split
      · exact Or.inl rfl
      · exact Or.inr rfl

theorem le_bankersRound {α : Type} [LinearOrderedField α] [FloorRing α]
    {q : α} {n : ℤ} (h : (n : α) ≤ q) : n ≤ bankersRound q := by
  have hfl : n ≤ ⌊q⌋ := Int.le_floor.mpr h
  rcases bankersRound_mem q with h1 | h1
  · omega
  · omega

theorem bankersRound_le {α : Type} [LinearOrderedField α] [FloorRing α]
    {q : α} {n : ℤ} (h : q ≤ (n : α)) : bankersRound q ≤ n := by
  have hfl : ⌊q⌋ ≤ n := by
    have := Int.floor_le_floor (α := α) h
    simpa using this
  unfold bankersRound
  split
  · exact hfl
  · rename_i hlt
    have hq : (1:α)/2 ≤ q - ⌊q⌋ := le_of_not_lt hlt
    have hstrict : ⌊q⌋ < n := by
      by_contra hc
      push_neg at hc
      have hcast : (n : α) ≤ (⌊q⌋ : α) := by exact_mod_cast hc
      linarith
    split
    · omega
    · split
      · omega
      · omega

theorem roundTo1_nonneg {α : Type} [LinearOrderedField α] [FloorRing α]
    {q : α} (h : 0 ≤ q) : 0 ≤ roundTo1 q := by
  unfold roundTo1
  have h10 : (0:α) ≤ q * 10 := by positivity
  have := le_bankersRound (α := α) (n := 0) (q := q * 10) (by exact_mod_cast h10)
  have : (0:α) ≤ (bankersRound (q * 10) : α) := by exact_mod_cast this
  positivity

theorem roundTo1_le {α : Type} [LinearOrderedField α] [FloorRing α]
    {q : α} {n : ℤ} (h : q ≤ (n : α)) : roundTo1 q ≤ (n : α) := by
  unfold roundTo1
  have h10 : q * 10 ≤ ((n * 10 : ℤ) : α) := by push_cast; linarith
  have hb := bankersRound_le h10
  have hb' : (bankersRound (q * 10) : α) ≤ ((n * 10 : ℤ) : α) := by exact_mod_cast hb
  have : (bankersRound (q * 10) : α) / 10 ≤ ((n * 10 : ℤ) : α) / 10 := by
    apply div_le_div_of_nonneg_right hb'
    norm_num
  calc (bankersRound (q * 10) : α) / 10 ≤ ((n * 10 : ℤ) : α) / 10 := this
    _ = (n : α) := by push_cast; ring

/-- Geographic coordinate (`data_loader.LatLng`).  `label` is e.g. a hub or
venue name. -/
structure LatLng where
  lat : ℚ
  lng : ℚ
  label : String := ""
deriving Repr, DecidableEq

/-- `LatLng.__eq__`: equality compares latitude and longitude rounded to six
decimals; the label is ignored. -/
def latLngEq (a b : LatLng) : Bool :=
  round6 a.lat == round6 b.lat && round6 a.lng == round6 b.lng

/-- `LatLng.__hash__` hashes the tuple of six-decimal roundings; we model the
hash by the rounded pair itself (Python guarantees equal tuples hash
equally). -/
def latLngHash (a : LatLng) : ℚ × ℚ :=
  (round6 a.lat, round6 a.lng)

/-- Soft/hard constraint set (`constraints.Constraints`), with the dataclass
defaults.  `time_windows` and datetime fields are modelled with integer
timestamps; their contents are irrelevant to the verified claims. -/
structure TimeWindow where
  earliest_arrival : Int
  latest_arrival : Int
  service_time_minutes : Int := 60
deriving Repr, DecidableEq

/-- Contract line item (`data_loader.ContractItem`). -/
structure ContractItem where
  id : String
  contract_id : String
  customer_id : String
  customer_name : String
  asset_type : String
  model_version : Option String
  quantity : Nat
  branding_spec : Option String
deriving Repr, DecidableEq

/-- Game venue (`data_loader.Venue`). -/
structure Venue where
  id : String
  customer_id : Option String
  name : String
  address : Option String := none
  city : Option String := none
  state : Option String := none
  lat : Option ℚ
  lng : Option ℚ
  is_primary : Bool := false
deriving Repr, DecidableEq

/-- `Venue.location`. -/
def Venue.location (v : Venue) : Option LatLng :=
  match v.lat, v.lng with
  | some la, some ln => some ⟨la, ln, v.name⟩
  | _, _ => none

/-- Scheduled game (`data_loader.Game`). -/
structure Game where
  id : String
  customer_id : String
  customer_name : String
  venue_id : Option String
  venue : Option Venue
  season_year : Int
  week_number : Nat
  game_date : String
  game_time : Option String
  opponent : Option String := none
  is_home_game : Bool := true
  sidelines_served : String := "both"
  season_phase : String := "regular"
deriving Repr, DecidableEq

/-- Equipment demand for a game at a venue (`constraints.Demand`). -/
structure Demand where
  game : Game
  venue_id : String
  customer_id : String
  customer_name : String
  items : List ContractItem
  total_quantity : Nat
  total_weight_lbs : ℚ
  time_window : Option TimeWindow := none
deriving Repr, DecidableEq

/-- Complete constraint set (`constraints.Constraints`) with the dataclass
defaults.  `time_windows` is the venue-id-keyed dict, modelled as an
association list. -/
structure Constraints where
  demands : List Demand := []
  time_windows : List (String × TimeWindow) := []
  max_drive_hrs : Nat := 11
  setup_buffer_hours : ℚ := 4
  teardown_buffer_hours : ℚ := 3
  weight_minimize_miles : ℚ := 1
  weight_minimize_vehicles : ℚ := 8/10
  weight_prefer_closest_hub : ℚ := 6/10
  weight_minimize_rebranding : ℚ := 7/10
  weight_geographic_clustering : ℚ := 5/10
  blocked_asset_ids : List String := []
  hub_vehicle_counts : List (String × Nat) := []
  hub_personnel_counts : List (String × Nat) := []
deriving Repr, DecidableEq

/-- `Constraints.is_relaxed`: note the source compares only four of the five
soft-constraint weights — `weight_geographic_clustering` is not consulted. -/
def Constraints.is_relaxed (c : Constraints) : Bool :=
  decide (c.weight_minimize_miles < 1)
  || decide (c.weight_minimize_vehicles < 8/10)
  || decide (c.weight_prefer_closest_hub < 6/10)
  || decide (c.weight_minimize_rebranding < 7/10)

/-- C5 counterexample: a `Constraints` value whose only deviation from the
defaults is a cluster-compactness (geographic clustering) weight strictly
below its default 0.5 still has `is_relaxed () = false`, contradicting the
claim that lowering only that weight makes `is_relaxed` true. -/
theorem is_relaxed_ignores_clustering_weight :
    ({ weight_geographic_clustering := 2/5 } : Constraints).weight_geographic_clustering
        < 5/10
    ∧ ({ weight_geographic_clustering := 2/5 } : Constraints).is_relaxed = false := by
  constructor
  · norm_num
  · simp only [Constraints.is_relaxed]
    norm_num

/-- C5 (amended): `is_relaxed` returns true iff at least one of the four
weights minimize-miles (default 1.0), minimize-vehicles (0.8), closest-hub
(0.6) or minimize-rebranding (0.7) is strictly below its default; the
geographic-clustering weight is ignored. -/
theorem is_relaxed_iff (c : Constraints) :
    c.is_relaxed = true ↔
      (c.weight_minimize_miles < 1 ∨ c.weight_minimize_vehicles < 8/10
        ∨ c.weight_prefer_closest_hub < 6/10 ∨ c.weight_minimize_rebranding < 7/10) := by
  simp [Constraints.is_relaxed, Bool.or_eq_true, decide_eq_true_eq, or_assoc]

/-- C8 counterexample: latitudes 0.0000004 and 0.0000014 differ by exactly
1e-6 (and longitudes are equal), yet the two coordinates are unequal under
`LatLng` equality and have different hashes, because rounding to six decimals
sends them to 0.0 and 0.000001 respectively. -/
theorem latLng_tolerance_counterexample :
    |(4/10000000 : ℚ) - 14/10000000| ≤ 1/1000000
    ∧ |(0 : ℚ) - 0| ≤ 1/1000000
    ∧ latLngEq ⟨4/10000000, 0, ""⟩ ⟨14/10000000, 0, "x"⟩ = false
    ∧ latLngHash ⟨4/10000000, 0, ""⟩ ≠ latLngHash ⟨14/10000000, 0, "x"⟩ := by
  refine ⟨by rw [abs_le]; norm_num, by norm_num, ?_, ?_⟩
  · norm_num [latLngEq, round6, bankersRound]
  · norm_num [latLngHash, round6, bankersRound, Prod.ext_iff]

/-- C8 (amended): `LatLng` equality and hashing compare latitude and longitude
rounded to six decimals and ignore the label: two coordinates are equal iff
their six-decimal roundings agree componentwise, iff their hashes agree; a
mere difference of at most 1e-6 in both axes does not guarantee equality,
since rounding can separate such coordinates (see the counterexample). -/
theorem latLngEq_iff_round6 (a b : LatLng) :
    (latLngEq a b = true ↔ (round6 a.lat = round6 b.lat ∧ round6 a.lng = round6 b.lng))
    ∧ (latLngEq a b = true ↔ latLngHash a = latLngHash b)
    ∧ (∀ s t : String, latLngEq ⟨a.lat, a.lng, s⟩ ⟨b.lat, b.lng, t⟩ = latLngEq a b) := by
  refine ⟨?_, ?_, ?_⟩
  · simp [latLngEq, Bool.and_eq_true, beq_iff_eq]
  · simp [latLngEq, latLngHash, Bool.and_eq_true, beq_iff_eq, Prod.ext_iff]
  · intro s t
    simp [latLngEq]

/-- Distribution hub (`data_loader.Hub`). -/
structure Hub where
  id : String
  name : String
  city : String := ""
  state : String := ""
  address : String := ""
  lat : ℚ
  lng : ℚ
deriving Repr, DecidableEq

/-- `Hub.location`. -/
def Hub.location (h : Hub) : LatLng := ⟨h.lat, h.lng, h.name⟩

/-- Physical equipment piece (`data_loader.Asset`). -/
structure Asset where
  id : String
  serial_number : String
  asset_type : String
  model_version : Option String
  condition : String
  status : String
  home_hub_id : String
  current_hub : Option String
  current_venue_id : Option String
  current_trip_id : Option String := none
  weight_lbs : Option ℚ
  current_branding : Option String
deriving Repr, DecidableEq

/-- Transport vehicle (`data_loader.Vehicle`). -/
structure Vehicle where
  id : String
  name : String
  type : Option String := none
  home_hub_id : String
  capacity_lbs : Option ℚ
  capacity_cuft : Option ℚ := none
  status : String
deriving Repr, DecidableEq

/-- Personnel member (`data_loader.Person`). -/
structure Person where
  id : String
  name : String
  role : String
  home_hub_id : String
  skills : List String := []
  max_drive_hrs : Nat := 11
deriving Repr, DecidableEq

/-- Branding task (`data_loader.BrandingTask`). -/
structure BrandingTask where
  id : String
  asset_id : String
  from_branding : Option String
  to_branding : Option String
  hub_id : String
  needed_by_date : Option String := none
  status : String
deriving Repr, DecidableEq

/-- Asset-to-customer assignment (`data_loader.AssetAssignment`). -/
structure AssetAssignment where
  id : String
  asset_id : String
  customer_id : String
  season_year : Int
  is_permanent : Bool
deriving Repr, DecidableEq

/-- All data needed to optimize a single week (`data_loader.WeekData`). -/
structure WeekData where
  season_year : Int
  week_number : Nat
  games : List Game := []
  contract_items : List ContractItem := []
  assets : List Asset := []
  vehicles : List Vehicle := []
  personnel : List Person := []
  hubs : List Hub := []
  branding_tasks : List BrandingTask := []
  asset_assignments : List AssetAssignment := []
deriving Repr, DecidableEq

/-- Helper for `WeekData.game_venues`: unique venues with games, deduplicated
by venue id in encounter order. -/
def gameVenuesAux (seen : List String) : List Game → List Venue
  | [] => []
  | g :: rest =>
    match g.venue, g.venue_id with
    | some v, some vid =>
      if seen.contains vid then gameVenuesAux seen rest
      else v :: gameVenuesAux (vid :: seen) rest
    | _, _ => gameVenuesAux seen rest

/-- `WeekData.game_venues`. -/
def WeekData.game_venues (wd : WeekData) : List Venue :=
  gameVenuesAux [] wd.games

/-- `WeekData.hub_locations`. -/
def WeekData.hub_locations (wd : WeekData) : List LatLng :=
  wd.hubs.map Hub.location

/-- `WeekData.demands_for_game`. -/
def WeekData.demands_for_game (wd : WeekData) (g : Game) : List ContractItem :=
  wd.contract_items.filter (fun ci => ci.customer_id == g.customer_id)

/-- `WeekData.assets_at_hub`. -/
def WeekData.assets_at_hub (wd : WeekData) (hub_id : String) : List Asset :=
  wd.assets.filter (fun a => a.status == "at_hub" && a.current_hub == some hub_id)

/-- `WeekData.assets_at_venue`. -/
def WeekData.assets_at_venue (wd : WeekData) (venue_id : String) : List Asset :=
  wd.assets.filter (fun a => a.status == "on_site" && a.current_venue_id == some venue_id)

/-- `WeekData.available_vehicles_at_hub`. -/
def WeekData.available_vehicles_at_hub (wd : WeekData) (hub_id : String) : List Vehicle :=
  wd.vehicles.filter (fun v => v.home_hub_id == hub_id && v.status == "active")

/-- `WeekData.available_personnel_at_hub`. -/
def WeekData.available_personnel_at_hub (wd : WeekData) (hub_id : String) : List Person :=
  wd.personnel.filter (fun p => p.home_hub_id == hub_id)

/-- Python's `min(xs, key=f)`: the first element attaining the minimum key
(`none` on an empty list, where Python would raise). -/
def minByKey {α : Type} (f : α → ℚ) : List α → Option α
  | [] => none
  | x :: xs => some (xs.foldl (fun best y => if f y < f best then y else best) x)

/-- `WeekData.nearest_hub`: nearest hub to a venue by squared lat/lng
distance. -/
def WeekData.nearest_hub (wd : WeekData) (v : Venue) : Option Hub :=
  match v.location with
  | none => none
  | some loc =>
    minByKey (fun h => (h.lat - loc.lat) ^ 2 + (h.lng - loc.lng) ^ 2) wd.hubs

/-- Distance/duration between two points (`distance_matrix.DistanceEntry`). -/
structure DistanceEntry where
  distance_miles : ℚ
  duration_minutes : ℚ
deriving Repr, DecidableEq

/-- The NxN distance matrix as consumed by the planner.  `entry i j` models
`DistanceMatrix.get(i, j)`, which never fails (cache hit, provider result or
haversine fallback); the verified planner properties hold for every value the
matrix can return, so the entries are left abstract here.  The haversine
fallback itself is modelled over `ℝ` separately below. -/
structure DistMat where
  locations : List LatLng
  entry : Nat → Nat → DistanceEntry

/-- `DistanceMatrix.location_index`: linear scan by the tolerant (6-decimal)
`LatLng` equality. -/
def DistMat.location_index (m : DistMat) (l : LatLng) : Option Nat :=
  m.locations.findIdx? (fun loc => latLngEq loc l)

/-- `DistanceMatrix.distance_miles`. -/
def DistMat.distance_miles (m : DistMat) (i j : Nat) : ℚ :=
  (m.entry i j).distance_miles

/-- `DistanceMatrix.duration_minutes`. -/
def DistMat.duration_minutes (m : DistMat) (i j : Nat) : ℚ :=
  (m.entry i j).duration_minutes

/-- Python truthiness of an optional string: `None` and `""` are falsy. -/
def strTruthy : Option String → Bool
  | none => false
  | some s => s != ""

/-- `constraints.check_branding`.  The unused `customer_name` parameter of the
source function is omitted.  `not branding_spec` and
`not asset.current_branding` are Python truthiness tests, so the empty string
behaves like `None`. -/
def check_branding (asset : Asset) (branding_spec : Option String)
    (branding_tasks : List BrandingTask) : Bool :=
  if !strTruthy branding_spec then true
  else if !strTruthy asset.current_branding then true
  else if asset.current_branding == branding_spec then true
  else branding_tasks.any (fun bt =>
    bt.asset_id == asset.id && bt.to_branding == branding_spec && bt.status == "completed")

/-- `constraints.match_asset_to_demand`: type, model, blocked and branding
checks for one asset against one contract item. -/
def match_asset_to_demand (asset : Asset) (demand_item : ContractItem)
    (blocked_ids : List String) (branding_tasks : List BrandingTask) : Bool :=
  if blocked_ids.contains asset.id then false
  else if asset.condition == "out_of_service" || asset.condition == "needs_repair" then false
  else if asset.asset_type != demand_item.asset_type then false
  else if strTruthy demand_item.model_version
      && asset.model_version != demand_item.model_version then false
  else check_branding asset demand_item.branding_spec branding_tasks

/-- `constraints.check_capacity_weight`.  `not vehicle.capacity_lbs` is a
Python truthiness test, so a capacity of 0 means "no limit". -/
def check_capacity_weight (vehicle : Vehicle) (total_weight : ℚ) : Bool :=
  match vehicle.capacity_lbs with
  | none => true
  | some cap => if cap == 0 then true else decide (total_weight ≤ cap)

/-- A stop within a trip (`optimizer.TripStop`). -/
structure TripStop where
  venue_id : String
  venue_name : String
  stop_order : Nat
  arrival_time : Option String := none
  depart_time : Option String := none
  action : String := "deliver"
  requires_hub_return : Bool := false
  hub_return_reason : Option String := none
  demand : Option Demand := none
deriving Repr, DecidableEq

/-- An asset assigned to a trip (`optimizer.TripAsset`). -/
structure TripAsset where
  asset_id : String
  serial_number : String
  asset_type : String
  stop_id : Option String := none
deriving Repr, DecidableEq

/-- A person assigned to a trip (`optimizer.TripPerson`). -/
structure TripPerson where
  person_id : String
  person_name : String
  role_on_trip : String
deriving Repr, DecidableEq

/-- A complete trip (`optimizer.Trip`). -/
structure Trip where
  vehicle_id : String
  vehicle_name : String
  origin_hub_id : String
  origin_hub_name : String
  stops : List TripStop := []
  assets : List TripAsset := []
  personnel : List TripPerson := []
  total_miles : ℚ := 0
  total_drive_hrs : ℚ := 0
  optimizer_score : ℚ := 0
  depart_time : Option String := none
  return_time : Option String := none
deriving Repr, DecidableEq

/-- A demand that could not be fulfilled (`optimizer.UnassignedDemand`). -/
structure UnassignedDemand where
  customer_name : String
  venue_name : String
  asset_type : String
  quantity : Nat
  reason : String
deriving Repr, DecidableEq

/-- A constraint-relaxation log entry: the dicts appended by the cascade,
with keys `step`, `action`, `detail`. -/
structure Relaxation where
  step : Nat
  action : String
  detail : String
deriving Repr, DecidableEq

/-- Result of an optimization run (`optimizer.OptimizationResult`). -/
structure OptimizationResult where
  trips : List Trip := []
  unassigned_demands : List UnassignedDemand := []
  warnings : List String := []
  errors : List String := []
  constraint_relaxations : List Relaxation := []
  solve_time_ms : Int := 0
  status : String := "completed"
  average_score : ℚ := 0
deriving Repr, DecidableEq

/-- `OptimizationResult.has_unassigned`. -/
def OptimizationResult.has_unassigned (r : OptimizationResult) : Bool :=
  !r.unassigned_demands.isEmpty

/-- Venue name recorded on an `UnassignedDemand`
(`demand.game.venue.name if demand.game.venue else "Unknown"`). -/
def demandVenueName (d : Demand) : String :=
  match d.game.venue with
  | some v => v.name
  | none => "Unknown"

/-- Inner loop of `_assign_assets_to_demand` for one contract item: scan the
available assets, skipping ones already used for this demand, stopping once
the item's quantity is matched.  Returns the assets assigned for this item,
the updated per-demand used-id set and the match count. -/
def assignItemLoop (item : ContractItem) (blocked : List String)
    (tasks : List BrandingTask) :
    List Asset → List String → Nat → List Asset × List String × Nat
  | [], used, matched => ([], used, matched)
  | a :: rest, used, matched =>
    if used.contains a.id then assignItemLoop item blocked tasks rest used matched
    else if item.quantity ≤ matched then ([], used, matched)
    else if match_asset_to_demand a item blocked tasks then
      let (assigned, used', matched') :=
        assignItemLoop item blocked tasks rest (a.id :: used) (matched + 1)
      (a :: assigned, used', matched')
    else assignItemLoop item blocked tasks rest used matched

/-- Outer loop of `_assign_assets_to_demand` over the demand's contract
items, threading the per-demand used-id set; a shortfall on an item yields an
`UnassignedDemand` with the "Only K of N" reason. -/
def assignItems (demand : Demand) (available : List Asset) (blocked : List String)
    (tasks : List BrandingTask) :
    List ContractItem → List String → List Asset × List UnassignedDemand
  | [], _ => ([], [])
  | item :: rest, used =>
    let (assigned, used', matched) := assignItemLoop item blocked tasks available used 0
    let shortfall : List UnassignedDemand :=
      if matched < item.quantity then
        [{ customer_name := demand.customer_name,
           venue_name := demandVenueName demand,
           asset_type := item.asset_type,
           quantity := item.quantity - matched,
           reason := "Only " ++ toString matched ++ " of " ++ toString item.quantity
             ++ " " ++ item.asset_type ++ " available" }]
      else []
    let (restAssigned, restUnassigned) :=
      assignItems demand available blocked tasks rest used'
    (assigned ++ restAssigned, shortfall ++ restUnassigned)

/-- `optimizer._assign_assets_to_demand`. -/
def _assign_assets_to_demand (demand : Demand) (available : List Asset)
    (blocked : List String) (tasks : List BrandingTask) :
    List Asset × List UnassignedDemand :=
  assignItems demand available blocked tasks demand.items []

/-- First loop of `_assign_personnel`: scan for an unused dedicated driver.
The source loop's leading `continue` (used driver) is kept verbatim; its net
effect is to select the first available person with role `driver` whose id is
not in the used set. -/
def driverScan (used : List String) : List Person → Option Person
  | [] => none
  | p :: rest =>
    if used.contains p.id && p.role == "driver" then driverScan used rest
    else if p.role == "driver" && !used.contains p.id then some p
    else driverScan used rest

/-- Second/third loops of `_assign_personnel`: scan for the first unused
person whose role is `lead_tech` or `service_tech` (second loop) or
`service_tech` or `lead_tech` (third loop); the role sets coincide, so one
scan serves both. -/
def techScan (used : List String) : List Person → Option Person
  | [] => none
  | p :: rest =>
    if used.contains p.id then techScan used rest
    else if p.role == "lead_tech" || p.role == "service_tech" then some p
    else techScan used rest

/-- `optimizer._assign_personnel`: assign a driver (dedicated driver first,
otherwise the first available lead/service tech) and then, if one is still
free, an additional service tech.  Returns the assigned `TripPerson` list and
the updated used-person-id set (the source mutates the set in place). -/
def _assign_personnel (hub : Hub) (wd : WeekData) (used : List String) :
    List TripPerson × List String :=
  let available := wd.available_personnel_at_hub hub.id
  let (personnel, used1) :=
    match driverScan used available with
    | some p => ([TripPerson.mk p.id p.name "driver"], p.id :: used)
    | none =>
      match techScan used available with
      | some p => ([TripPerson.mk p.id p.name "driver"], p.id :: used)
      | none => ([], used)
  match techScan used1 available with
  | some p => (personnel ++ [TripPerson.mk p.id p.name "service_tech"], p.id :: used1)
  | none => (personnel, used1)

/-- Reference description of personnel assignment, written from the amended
claim's words: choose the first available unused dedicated driver; failing
that, the first available unused person whose role is lead_tech or
service_tech, in availability-list order with no preference between the two
roles; then add the first remaining unused service/lead tech as the
additional service tech. -/
def personnelSpecOrder (hub : Hub) (wd : WeekData) (used : List String) :
    List TripPerson × List String :=
  let available := wd.available_personnel_at_hub hub.id
  let isUnusedTech := fun (u : List String) (p : Person) =>
    !u.contains p.id && (p.role == "lead_tech" || p.role == "service_tech")
  let (personnel, used1) :=
    match available.find? (fun p => p.role == "driver" && !used.contains p.id) with
    | some p => ([TripPerson.mk p.id p.name "driver"], p.id :: used)
    | none =>
      match available.find? (isUnusedTech used) with
      | some p => ([TripPerson.mk p.id p.name "driver"], p.id :: used)
      | none => ([], used)
  match available.find? (isUnusedTech used1) with
  | some p => (personnel ++ [TripPerson.mk p.id p.name "service_tech"], p.id :: used1)
  | none => (personnel, used1)

theorem driverScan_eq_find (used : List String) (l : List Person) :
    driverScan used l = l.find? (fun p => p.role == "driver" && !used.contains p.id) := by
  induction l with
  | nil => rfl
  | cons p rest ih =>
    by_cases hu : p.id ∈ used
    · by_cases hd : p.role = "driver"
      · simp [driverScan, List.find?, hu, hd, ih]
      · simp [driverScan, List.find?, hu, hd, ih]
    · by_cases hd : p.role = "driver"
      · simp [driverScan, List.find?, hu, hd]
      · have hd' : (p.role == "driver") = false := by simp [hd]
        simp [driverScan, List.find?, hu, hd', ih]

theorem techScan_eq_find (used : List String) (l : List Person) :
    techScan used l =
      l.find? (fun p =>
        !used.contains p.id && (p.role == "lead_tech" || p.role == "service_tech")) := by
  induction l with
  | nil => rfl
  | cons p rest ih =>
    by_cases hu : p.id ∈ used
    · simp [techScan, List.find?, hu, ih]
    · by_cases h1 : p.role = "lead_tech"
      · simp [techScan, List.find?, hu, h1]
      · by_cases h2 : p.role = "service_tech"
        · simp [techScan, List.find?, hu, h1, h2]
        · have h1' : (p.role == "lead_tech") = false := by simp [h1]
          have h2' : (p.role == "service_tech") = false := by simp [h2]
          simp [techScan, List.find?, hu, h1', h2', ih]

/-- C6 (amended): personnel assignment reserves the first available unused
dedicated driver; if there is none it falls back to the first available
unused person whose role is lead_tech or service_tech — in availability-list
order, with no preference of lead_tech over service_tech — and afterwards
reserves one additional unused service/lead tech if one is free. -/
theorem assign_personnel_order (hub : Hub) (wd : WeekData) (used : List String) :
    _assign_personnel hub wd used = personnelSpecOrder hub wd used := by
  simp only [_assign_personnel, personnelSpecOrder, driverScan_eq_find, techScan_eq_find]

/-- Week data for the C6 counterexample: one hub whose available personnel
are, in order, a service tech and a lead tech; no dedicated driver. -/
def wdPersonnel : WeekData :=
  { season_year := 2025, week_number := 1,
    personnel := [
      { id := "p-s", name := "Sam", role := "service_tech", home_hub_id := "h1" },
      { id := "p-l", name := "Lee", role := "lead_tech", home_hub_id := "h1" }] }

/-- Hub used by the C6 counterexample. -/
def hubOne : Hub := { id := "h1", name := "Hub One", lat := 0, lng := 0 }

/-- C6 counterexample: the hub's availability list has an unused lead tech
and an unused service tech and no driver, yet the person reserved as driver
is the service tech (the first in list order), not the lead tech, refuting
the claimed lead_tech-before-service_tech preference. -/
theorem personnel_fallback_counterexample :
    (wdPersonnel.available_personnel_at_hub "h1").all (fun p => p.role != "driver") = true
    ∧ ((wdPersonnel.available_personnel_at_hub "h1").any
        (fun p => p.role == "lead_tech")) = true
    ∧ ((wdPersonnel.available_personnel_at_hub "h1").any
        (fun p => p.role == "service_tech")) = true
    ∧ (_assign_personnel hubOne wdPersonnel []).1 =
        [⟨"p-s", "Sam", "driver"⟩, ⟨"p-l", "Lee", "service_tech"⟩]
    ∧ (wdPersonnel.personnel.find? (fun p => p.id == "p-s")).map Person.role
        = some "service_tech" := by
  refine ⟨by decide, by decide, by decide, by decide, by decide⟩

/-- A group of venues served in one multi-stop trip
(`clustering.VenueCluster`). -/
structure VenueCluster where
  venues : List Venue := []
  nearest_hub : Option Hub := none
  total_demand_weight : ℚ := 0
  total_demand_quantity : Nat := 0
  ordered_venue_ids : List String := []
deriving Repr, DecidableEq

/-- First free (not yet used) vehicle at a hub, in list order. -/
def findFreeVehicle (wd : WeekData) (hub_id : String) (usedV : List String) : Option Vehicle :=
  (wd.available_vehicles_at_hub hub_id).find? (fun v => !usedV.contains v.id)

/-- Cross-hub fallback scan of `_build_trip_for_cluster`: first other hub
with a free vehicle, together with the warning the source appends. -/
def crossHubScan (wd : WeekData) (hubId : String) (usedV : List String)
    (firstVenueName : String) : Option (Vehicle × Hub × String) :=
  go wd.hubs
where
  go : List Hub → Option (Vehicle × Hub × String)
  | [] => none
  | h :: rest =>
    if h.id == hubId then go rest
    else
      match findFreeVehicle wd h.id usedV with
      | some v => some (v, h,
          "Cross-hub: Using " ++ v.name ++ " from " ++ h.name
            ++ " for venue " ++ firstVenueName)
      | none => go rest

/-- Unassigned-demand records emitted when no vehicle is available for a
cluster: one per contract item of every demand at every cluster venue. -/
def noVehicleUnassigned (demands : List Demand) (venues : List Venue) :
    List UnassignedDemand :=
  venues.flatMap (fun venue =>
    (demands.filter (fun d => d.venue_id == venue.id)).flatMap (fun d =>
      d.items.map (fun item =>
        { customer_name := d.customer_name, venue_name := venue.name,
          asset_type := item.asset_type, quantity := item.quantity,
          reason := "No vehicle with sufficient capacity available" })))

/-- Mutable state of the asset-gathering loops of
`_build_trip_for_cluster`. -/
structure GatherState where
  usedA : List String
  hubAssets : List Asset
  tripAssets : List TripAsset
  totalWeight : ℚ
  unassigned : List UnassignedDemand
deriving Repr

/-- Record the assets assigned to one demand: append `TripAsset`s, mark the
ids used, add the weights, and drop the assets from the remaining hub
pool. -/
def consumeAssigned : List Asset → GatherState → GatherState
  | [], st => st
  | a :: rest, st =>
    consumeAssigned rest
      { usedA := a.id :: st.usedA,
        hubAssets := st.hubAssets.filter (fun x => x.id != a.id),
        tripAssets := st.tripAssets ++ [⟨a.id, a.serial_number, a.asset_type, none⟩],
        totalWeight := st.totalWeight + a.weight_lbs.getD 0,
        unassigned := st.unassigned }

/-- Per-venue demand loop of `_build_trip_for_cluster`: on-site assets are
recomputed per demand against the current used set, matching runs over
on-site + hub assets. -/
def demandLoop (wd : WeekData) (blocked : List String) (tasks : List BrandingTask)
    (venue : Venue) : List Demand → GatherState → GatherState
  | [], st => st
  | d :: rest, st =>
    let on_site := (wd.assets_at_venue venue.id).filter (fun a => !st.usedA.contains a.id)
    let available := on_site ++ st.hubAssets
    let (assigned, unassigned) := _assign_assets_to_demand d available blocked tasks
    let st1 := { st with unassigned := st.unassigned ++ unassigned }
    demandLoop wd blocked tasks venue rest (consumeAssigned assigned st1)

/-- Venue loop of `_build_trip_for_cluster`, over the cluster's venues with
their `enumerate` indices.  A venue without demands appends no stop but still
advances the enumerate counter; a stop's `stop_order` is the venue's 1-based
position in the cluster, not its position in the stop list. -/
def venueLoop (wd : WeekData) (constraints : Constraints) :
    List (Nat × Venue) → GatherState → List TripStop → GatherState × List TripStop
  | [], st, stops => (st, stops)
  | (idx, venue) :: rest, st, stops =>
    let venue_demands := constraints.demands.filter (fun d => d.venue_id == venue.id)
    if venue_demands.isEmpty then venueLoop wd constraints rest st stops
    else
      let st' := demandLoop wd constraints.blocked_asset_ids wd.branding_tasks
        venue venue_demands st
      let stop : TripStop :=
        ⟨venue.id, venue.name, idx + 1, none, none, "deliver", false, none,
          venue_demands.head?⟩
      venueLoop wd constraints rest st' (stops ++ [stop])

/-- Distance accumulation over the trip's stops (hub → stops in order):
returns the last venue index seen and the summed miles/minutes. -/
def stopLegs (m : DistMat) (venues : List Venue) :
    List TripStop → Option Nat → ℚ → ℚ → Option Nat × ℚ × ℚ
  | [], prev, miles, mins => (prev, miles, mins)
  | stop :: rest, prev, miles, mins =>
    match venues.find? (fun v => v.id == stop.venue_id) with
    | some v =>
      match v.location with
      | some loc =>
        let vi := m.location_index loc
        match prev, vi with
        | some pi, some i =>
          stopLegs m venues rest vi (miles + m.distance_miles pi i)
            (mins + m.duration_minutes pi i)
        | _, _ => stopLegs m venues rest vi miles mins
      | none => stopLegs m venues rest prev miles mins
    | none => stopLegs m venues rest prev miles mins

/-- Result of building a trip for one cluster, together with the updated
used-id sets (the source mutates them in place). -/
structure BuildOutcome where
  trip : Option Trip
  unassigned : List UnassignedDemand
  warnings : List String
  used_vehicle_ids : List String
  used_asset_ids : List String
  used_person_ids : List String
deriving Repr

/-- Continuation of `_build_trip_for_cluster` once a vehicle (and possibly a
cross-hub fallback hub) has been chosen: gather assets per venue, build the
stops, check capacity, sum route distance, assign personnel and assemble the
trip.  Formatted-number warning strings are abbreviated to their fixed
prefixes; their content carries no verified property. -/
def buildTripWithVehicle (cluster : VenueCluster) (first_venue : Venue)
    (wd : WeekData) (m : DistMat) (constraints : Constraints)
    (vehicle : Vehicle) (hub : Hub) (warns0 : List String)
    (usedV usedA usedP : List String) : BuildOutcome :=
  let usedV1 := vehicle.id :: usedV
  let hubAssets0 := (wd.assets_at_hub hub.id).filter (fun a => !usedA.contains a.id)
  let st0 : GatherState := ⟨usedA, hubAssets0, [], 0, []⟩
  match venueLoop wd constraints cluster.venues.enum st0 [] with
  | (st, trip_stops) =>
    if trip_stops.isEmpty then
      ⟨none, st.unassigned, warns0, usedV1, st.usedA, usedP⟩
    else
      let warns1 :=
        if check_capacity_weight vehicle st.totalWeight then warns0
        else warns0 ++ ["Vehicle " ++ vehicle.name ++ " may be overloaded"]
      let hub_idx := m.location_index hub.location
      match stopLegs m cluster.venues trip_stops hub_idx 0 0 with
      | (prev, miles0, mins0) =>
        let (total_miles, total_minutes) :=
          match prev, hub_idx with
          | some pi, some hi =>
            (miles0 + m.distance_miles pi hi, mins0 + m.duration_minutes pi hi)
          | _, _ => (miles0, mins0)
        match _assign_personnel hub wd usedP with
        | (personnel, usedP1) =>
          let warns2 :=
            if personnel.isEmpty then
              warns1 ++ ["No personnel available at " ++ hub.name
                ++ " for trip to " ++ first_venue.name]
            else warns1
          let trip : Trip := {
            vehicle_id := vehicle.id, vehicle_name := vehicle.name,
            origin_hub_id := hub.id, origin_hub_name := hub.name,
            stops := trip_stops, assets := st.tripAssets, personnel := personnel,
            total_miles := roundTo1 total_miles,
            total_drive_hrs := roundTo2 (total_minutes / 60) }
          ⟨some trip, st.unassigned, warns2, usedV1, st.usedA, usedP1⟩

/-- `optimizer._build_trip_for_cluster`: pick the nearest hub to the first
venue, reserve a free vehicle there (falling back to other hubs), and build
the trip via `buildTripWithVehicle`; with no vehicle anywhere, emit one
unassigned record per contract item in the cluster. -/
def _build_trip_for_cluster (cluster : VenueCluster) (wd : WeekData) (m : DistMat)
    (constraints : Constraints) (usedV usedA usedP : List String) : BuildOutcome :=
  match cluster.venues with
  | [] => ⟨none, [], [], usedV, usedA, usedP⟩
  | first_venue :: _ =>
    match wd.nearest_hub first_venue with
    | none =>
      ⟨none, [], ["No hub found for venue " ++ first_venue.name], usedV, usedA, usedP⟩
    | some hub0 =>
      match findFreeVehicle wd hub0.id usedV with
      | some v =>
        buildTripWithVehicle cluster first_venue wd m constraints v hub0 []
          usedV usedA usedP
      | none =>
        match crossHubScan wd hub0.id usedV first_venue.name with
        | some (v, h, w) =>
          buildTripWithVehicle cluster first_venue wd m constraints v h [w]
            usedV usedA usedP
        | none =>
          ⟨none, noVehicleUnassigned constraints.demands cluster.venues, [],
            usedV, usedA, usedP⟩

/-- Python `int()` truncation toward zero on a rational. -/
def pyInt (q : ℚ) : ℤ := if 0 ≤ q then ⌊q⌋ else ⌈q⌉

/-- One entry of the local TSP sub-matrix: integer tenths of miles, 10000 as
penalty for unknown locations or indices. -/
def localDistEntry (m : DistMat) (li lj : Option LatLng) : Int :=
  match li, lj with
  | some a, some b =>
    match m.location_index a, m.location_index b with
    | some i, some j => pyInt (m.distance_miles i j * 10)
    | _, _ => 10000
  | _, _ => 10000

/-- Local (depot + stops) distance matrix handed to the TSP solver. -/
def buildLocalDist (m : DistMat) (locs : List (Option LatLng)) : List (List Int) :=
  (List.range locs.length).map (fun i =>
    (List.range locs.length).map (fun j =>
      if i == j then 0 else localDistEntry m (locs.getD i none) (locs.getD j none)))

/-- Oracle standing for the OR-Tools TSP solver: given the local distance
matrix it returns the extracted visit order of the stop indices (the source's
`new_order`), or `none` when the solver finds no solution.  The verified
properties hold for every oracle. -/
def TspOracle : Type := List (List Int) → Option (List Nat)

/-- `optimizer._ortools_reorder_stops`.  A solution whose length does not
match is discarded (source behaviour); out-of-range indices — on which the
source would raise — are modelled as keep-original. -/
def _ortools_reorder_stops (tsp : TspOracle) (trip : Trip) (m : DistMat) : List TripStop :=
  let stops := trip.stops
  let n := stops.length + 1
  if n ≤ 3 then stops
  else
    let hub_loc := (m.locations.find? (fun loc => loc.label == trip.origin_hub_name)).getD
      ⟨0, 0, "hub"⟩
    let stop_locations : List (Option LatLng) :=
      some hub_loc :: stops.map (fun s => m.locations.find? (fun loc => loc.label == s.venue_name))
    let local_dist := buildLocalDist m stop_locations
    match tsp local_dist with
    | none => stops
    | some new_order =>
      if new_order.length == stops.length && new_order.all (· < stops.length) then
        let reordered := new_order.filterMap (fun i => stops.get? i)
        reordered.enum.map (fun ks => { ks.2 with stop_order := ks.1 + 1 })
      else stops

/-- Total demand weight of a cluster (`optimize_week`, cluster-ordering
step). -/
def clusterWeight (demands : List Demand) (c : VenueCluster) : ℚ :=
  (c.venues.map (fun v =>
    ((demands.filter (fun d => d.venue_id == v.id)).map (·.total_weight_lbs)).sum)).sum

/-- Stable descending insertion by `total_demand_weight` (Python's stable
`list.sort(key=..., reverse=True)`). -/
def insertByWeightDesc (x : VenueCluster) : List VenueCluster → List VenueCluster
  | [] => [x]
  | y :: ys =>
    if y.total_demand_weight ≤ x.total_demand_weight then x :: y :: ys
    else y :: insertByWeightDesc x ys

/-- Stable descending sort by `total_demand_weight`. -/
def sortByWeightDesc (l : List VenueCluster) : List VenueCluster :=
  l.foldr insertByWeightDesc []

/-- Accumulated run state of `optimize_week`'s cluster loop. -/
structure PlanState where
  trips : List Trip
  unassigned : List UnassignedDemand
  warnings : List String
  usedV : List String
  usedA : List String
  usedP : List String
deriving Repr

/-- Cluster loop of `optimize_week`. -/
def clusterFold (wd : WeekData) (m : DistMat) (constraints : Constraints) :
    List VenueCluster → PlanState → PlanState
  | [], st => st
  | c :: rest, st =>
    let o := _build_trip_for_cluster c wd m constraints st.usedV st.usedA st.usedP
    clusterFold wd m constraints rest
      { trips := st.trips ++ o.trip.toList,
        unassigned := st.unassigned ++ o.unassigned,
        warnings := st.warnings ++ o.warnings,
        usedV := o.used_vehicle_ids, usedA := o.used_asset_ids,
        usedP := o.used_person_ids }

/-- `optimizer.optimize_week`: order clusters by total demand weight
descending, build a trip per cluster, then TSP-reorder trips with three or
more stops.  `solve_time_ms` (wall clock) is modelled as 0; `timeout_ms` only
feeds the solver's time cap, which the oracle absorbs. -/
def optimize_week (wd : WeekData) (m : DistMat) (constraints : Constraints)
    (clusters : List VenueCluster) (tsp : TspOracle)
    (pre_used_asset_ids : List String := []) : OptimizationResult :=
  let weighted := clusters.map (fun c =>
    { c with total_demand_weight := clusterWeight constraints.demands c })
  let sorted := sortByWeightDesc weighted
  let st := clusterFold wd m constraints sorted ⟨[], [], [], [], pre_used_asset_ids, []⟩
  let trips := st.trips.map (fun t =>
    if 3 ≤ t.stops.length then { t with stops := _ortools_reorder_stops tsp t m } else t)
  { trips := trips, unassigned_demands := st.unassigned, warnings := st.warnings,
    errors := [], constraint_relaxations := [], solve_time_ms := 0,
    status := if st.unassigned.isEmpty then "completed" else "partial",
    average_score := 0 }

/-- Blocked-asset derivation of `build_constraints` (constraints.py:146-149):
the ids of assets having a branding task whose status is pending or
in_progress. -/
def blockedFromBranding (wd : WeekData) : List String :=
  (wd.branding_tasks.filter
    (fun bt => bt.status == "pending" || bt.status == "in_progress")).map (·.asset_id)

theorem match_asset_not_blocked {a : Asset} {item : ContractItem}
    {blocked : List String} {tasks : List BrandingTask}
    (h : match_asset_to_demand a item blocked tasks = true) :
    blocked.contains a.id = false := by
  unfold match_asset_to_demand at h
  simp at h
  simpa using h.1

theorem assignItemLoop_matches {item : ContractItem} {blocked : List String}
    {tasks : List BrandingTask} :
    ∀ (assets : List Asset) (used : List String) (matched : Nat) (a : Asset),
      a ∈ (assignItemLoop item blocked tasks assets used matched).1 →
      match_asset_to_demand a item blocked tasks = true := by
  intro assets
  induction assets with
  | nil =>
    intro used matched a h
    simp [assignItemLoop] at h
  | cons x rest ih =>
    intro used matched a h
    unfold assignItemLoop at h
    split at h
    · exact ih _ _ a h
    · split at h
      · simp at h
      · split at h
        · rename_i hmatch
          rcases hrec : assignItemLoop item blocked tasks rest (x.id :: used) (matched + 1)
            with ⟨assigned, used', matched'⟩
          rw [hrec] at h
          simp at h
          rcases h with rfl | h
          · exact hmatch
          · exact ih _ _ a (by rw [hrec]; exact h)
        · exact ih _ _ a h

theorem assignItems_not_blocked {demand : Demand} {available : List Asset}
    {blocked : List String} {tasks : List BrandingTask} :
    ∀ (items : List ContractItem) (used : List String) (a : Asset),
      a ∈ (assignItems demand available blocked tasks items used).1 →
      blocked.contains a.id = false := by
  intro items
  induction items with
  | nil =>
    intro used a h
    simp [assignItems] at h
  | cons item rest ih =>
    intro used a h
    unfold assignItems at h
    rcases hloop : assignItemLoop item blocked tasks available used 0
      with ⟨assigned, used', matched⟩
    rw [hloop] at h
    dsimp only at h
    rcases hrest : assignItems demand available blocked tasks rest used'
      with ⟨restAssigned, restUnassigned⟩
    rw [hrest] at h
    dsimp only at h
    rw [List.mem_append] at h
    rcases h with h | h
    · exact match_asset_not_blocked
        (assignItemLoop_matches available used 0 a (by rw [hloop]; exact h))
    · exact ih used' a (by rw [hrest]; exact h)

theorem consumeAssigned_not_blocked {blocked : List String} :
    ∀ (assigned : List Asset) (st : GatherState),
      (∀ a ∈ assigned, blocked.contains a.id = false) →
      (∀ ta ∈ st.tripAssets, blocked.contains ta.asset_id = false) →
      ∀ ta ∈ (consumeAssigned assigned st).tripAssets,
        blocked.contains ta.asset_id = false := by
  intro assigned
  induction assigned with
  | nil =>
    intro st _ hst ta hta
    exact hst ta hta
  | cons a rest ih =>
    intro st hall hst ta hta
    refine ih _ (fun x hx => hall x (by simp [hx])) ?_ ta hta
    intro tb htb
    simp at htb
    rcases htb with htb | htb
    · exact hst tb htb
    · rw [htb]
      exact hall a (by simp)

theorem demandLoop_not_blocked {wd : WeekData} {blocked : List String}
    {tasks : List BrandingTask} {venue : Venue} :
    ∀ (demands : List Demand) (st : GatherState),
      (∀ ta ∈ st.tripAssets, blocked.contains ta.asset_id = false) →
      ∀ ta ∈ (demandLoop wd blocked tasks venue demands st).tripAssets,
        blocked.contains ta.asset_id = false := by
  intro demands
  induction demands with
  | nil =>
    intro st hst ta hta
    exact hst ta hta
  | cons d rest ih =>
    intro st hst ta hta
    unfold demandLoop at hta
    dsimp only at hta
    rcases hassign : _assign_assets_to_demand d
        ((wd.assets_at_venue venue.id).filter (fun a => !st.usedA.contains a.id)
          ++ st.hubAssets) blocked tasks
      with ⟨assigned, unassigned⟩
    rw [hassign] at hta
    dsimp only at hta
    refine ih _ ?_ ta hta
    refine consumeAssigned_not_blocked assigned _ ?_ ?_
    · intro a ha
      have ha2 : a ∈ (assignItems d
          ((wd.assets_at_venue venue.id).filter (fun x => !st.usedA.contains x.id)
            ++ st.hubAssets) blocked tasks d.items []).1 := by
        have h2 : assignItems d
            ((wd.assets_at_venue venue.id).filter (fun x => !st.usedA.contains x.id)
              ++ st.hubAssets) blocked tasks d.items []
            = (assigned, unassigned) := hassign
        rw [h2]
        exact ha
      exact assignItems_not_blocked d.items [] a ha2
    · intro tb htb
      exact hst tb htb

theorem venueLoop_not_blocked (wd : WeekData) (constraints : Constraints) :
    ∀ (l : List (Nat × Venue)) (st : GatherState) (stops : List TripStop),
      (∀ ta ∈ st.tripAssets,
        constraints.blocked_asset_ids.contains ta.asset_id = false) →
      ∀ ta ∈ (venueLoop wd constraints l st stops).1.tripAssets,
        constraints.blocked_asset_ids.contains ta.asset_id = false := by
  intro l
  induction l with
  | nil =>
    intro st stops hst ta hta
    exact hst ta hta
  | cons p rest ih =>
    intro st stops hst ta hta
    rcases p with ⟨idx, venue⟩
    unfold venueLoop at hta
    dsimp only at hta
    split at hta
    · exact ih _ _ hst ta hta
    · refine ih _ _ ?_ ta hta
      intro tb htb
      exact demandLoop_not_blocked _ _ hst tb htb

theorem buildTripWithVehicle_not_blocked (cluster : VenueCluster)
    (first_venue : Venue) (wd : WeekData) (m : DistMat) (constraints : Constraints)
    (vehicle : Vehicle) (hub : Hub) (warns0 : List String)
    (usedV usedA usedP : List String) :
    ∀ t, (buildTripWithVehicle cluster first_venue wd m constraints vehicle hub warns0
        usedV usedA usedP).trip = some t →
      ∀ ta ∈ t.assets,
        constraints.blocked_asset_ids.contains ta.asset_id = false := by
  intro t ht ta hta
  unfold buildTripWithVehicle at ht
  dsimp only at ht
  rcases hvl : venueLoop wd constraints cluster.venues.enum
      ⟨usedA, (wd.assets_at_hub hub.id).filter (fun a => !usedA.contains a.id),
        [], 0, []⟩ []
    with ⟨st, trip_stops⟩
  rw [hvl] at ht
  dsimp only at ht
  split at ht
  · simp at ht
  · rcases hlegs : stopLegs m cluster.venues trip_stops
        (m.location_index hub.location) 0 0 with ⟨prev, miles0, mins0⟩
    rw [hlegs] at ht
    dsimp only at ht
    rcases hpers : _assign_personnel hub wd usedP with ⟨personnel, usedP1⟩
    rw [hpers] at ht
    dsimp only at ht
    have hassets : t.assets = st.tripAssets := by
      cases ht
      rfl
    rw [hassets] at hta
    have := venueLoop_not_blocked wd constraints cluster.venues.enum
      ⟨usedA, (wd.assets_at_hub hub.id).filter (fun a => !usedA.contains a.id),
        [], 0, []⟩ []
      (by intro tb htb; simp at htb)
    rw [hvl] at this
    exact this ta hta

theorem build_trip_not_blocked (cluster : VenueCluster) (wd : WeekData) (m : DistMat)
    (constraints : Constraints) (usedV usedA usedP : List String) :
    ∀ t, (_build_trip_for_cluster cluster wd m constraints usedV usedA usedP).trip = some t →
      ∀ ta ∈ t.assets,
        constraints.blocked_asset_ids.contains ta.asset_id = false := by
  intro t ht ta hta
  unfold _build_trip_for_cluster at ht
  cases hcv : cluster.venues with
  | nil =>
    rw [hcv] at ht
    simp at ht
  | cons first_venue restVenues =>
    rw [hcv] at ht
    dsimp only at ht
    cases hnh : wd.nearest_hub first_venue with
    | none =>
      rw [hnh] at ht
      simp at ht
    | some hub0 =>
      rw [hnh] at ht
      dsimp only at ht
      cases hfv : findFreeVehicle wd hub0.id usedV with
      | some v =>
        rw [hfv] at ht
        dsimp only at ht
        exact buildTripWithVehicle_not_blocked cluster first_venue wd m constraints
          v hub0 [] usedV usedA usedP t ht ta hta
      | none =>
        rw [hfv] at ht
        dsimp only at ht
        cases hch : crossHubScan wd hub0.id usedV first_venue.name with
        | none =>
          rw [hch] at ht
          simp at ht
        | some triple =>
          rcases triple with ⟨v, h, w⟩
          rw [hch] at ht
          dsimp only at ht
          exact buildTripWithVehicle_not_blocked cluster first_venue wd m constraints
            v h [w] usedV usedA usedP t ht ta hta

theorem clusterFold_not_blocked (wd : WeekData) (m : DistMat)
    (constraints : Constraints) :
    ∀ (clusters : List VenueCluster) (st : PlanState),
      (∀ t ∈ st.trips, ∀ ta ∈ t.assets,
        constraints.blocked_asset_ids.contains ta.asset_id = false) →
      ∀ t ∈ (clusterFold wd m constraints clusters st).trips,
        ∀ ta ∈ t.assets,
          constraints.blocked_asset_ids.contains ta.asset_id = false := by
  intro clusters
  induction clusters with
  | nil =>
    intro st hst t ht ta hta
    exact hst t ht ta hta
  | cons c rest ih =>
    intro st hst t ht ta hta
    unfold clusterFold at ht
    dsimp only at ht
    refine ih _ ?_ t ht ta hta
    intro u hu tb htb
    rw [List.mem_append] at hu
    rcases hu with hu | hu
    · exact hst u hu tb htb
    · rcases ho : (_build_trip_for_cluster c wd m constraints st.usedV st.usedA st.usedP).trip
        with _ | u'
      · rw [ho] at hu
        simp at hu
      · rw [ho] at hu
        simp at hu
        exact build_trip_not_blocked c wd m constraints _ _ _ u' ho tb (hu ▸ htb)

/-- C3: whatever week data, matrix, clusters, TSP-solver behaviour and
pre-consumed assets are given, a run of the planner with the blocked-asset
set derived from pending/in-progress branding tasks never places a blocked
asset on any trip. -/
theorem blocked_assets_never_on_trips (wd : WeekData) (m : DistMat)
    (constraints : Constraints) (clusters : List VenueCluster) (tsp : TspOracle)
    (pre : List String)
    (_hblocked : constraints.blocked_asset_ids = blockedFromBranding wd) :
    ∀ t ∈ (optimize_week wd m constraints clusters tsp pre).trips,
      ∀ ta ∈ t.assets, ta.asset_id ∉ constraints.blocked_asset_ids := by
  intro t ht ta hta
  unfold optimize_week at ht
  dsimp only at ht
  rw [List.mem_map] at ht
  rcases ht with ⟨t0, ht0, hmap⟩
  have h0 : ∀ tb ∈ t0.assets,
      constraints.blocked_asset_ids.contains tb.asset_id = false := by
    intro tb htb
    exact clusterFold_not_blocked wd m constraints _ _
      (by intro u hu; simp at hu) t0 ht0 tb htb
  have hassets : t.assets = t0.assets := by
    rw [← hmap]
    split
    · rfl
    · rfl
  rw [hassets] at hta
  have := h0 ta hta
  simpa using this

/-- Venue used by the C3 witness. -/
def venueOne : Venue :=
  { id := "v1", customer_id := some "c1", name := "Venue One",
    lat := some 0, lng := some 0 }

/-- Game used by the C3 witness. -/
def gameOne : Game :=
  { id := "g1", customer_id := "c1", customer_name := "Cust One",
    venue_id := some "v1", venue := some venueOne, season_year := 2025,
    week_number := 3, game_date := "2025-09-21", game_time := some "13:00" }

/-- Witness data for C3: one pending branding task blocks asset `as-1`,
which sits at the only hub next to the only demanded venue; the run still
produces its trips without ever using `as-1`. -/
def wdBlocked : WeekData :=
  { season_year := 2025, week_number := 3, games := [gameOne],
    assets := [
      { id := "as-1", serial_number := "S1", asset_type := "heated_bench",
        model_version := none, condition := "good", status := "at_hub",
        home_hub_id := "h1", current_hub := some "h1", current_venue_id := none,
        weight_lbs := some 150, current_branding := none }],
    vehicles := [
      { id := "veh-1", name := "Truck 1", home_hub_id := "h1",
        capacity_lbs := some 10000, status := "active" }],
    personnel := [
      { id := "p-1", name := "Dee", role := "driver", home_hub_id := "h1" }],
    hubs := [{ id := "h1", name := "Hub One", lat := 0, lng := 0 }],
    branding_tasks := [
      { id := "bt-1", asset_id := "as-1", from_branding := none,
        to_branding := some "Cust One", hub_id := "h1", status := "pending" }] }

/-- Constraints used by the C3 witness: blocked ids as derived from the
branding tasks of `wdBlocked`. -/
def constraintsBlocked : Constraints :=
  { demands := [
      { game := gameOne, venue_id := "v1", customer_id := "c1",
        customer_name := "Cust One",
        items := [
          { id := "ci1", contract_id := "ct1", customer_id := "c1",
            customer_name := "Cust One", asset_type := "heated_bench",
            model_version := none, quantity := 1, branding_spec := none }],
        total_quantity := 1, total_weight_lbs := 150 }],
    blocked_asset_ids := ["as-1"] }

/-- C3 witness: the hypothesis of `blocked_assets_never_on_trips` holds for
the concrete week data `wdBlocked`, and the conclusion follows by applying
the theorem there. -/
theorem blocked_assets_never_on_trips_witness :
    constraintsBlocked.blocked_asset_ids = blockedFromBranding wdBlocked
    ∧ ∀ t ∈ (optimize_week wdBlocked ⟨[], fun _ _ => ⟨0, 0⟩⟩ constraintsBlocked
        [{ venues := [venueOne] }] (fun _ => none) []).trips,
      ∀ ta ∈ t.assets, ta.asset_id ∉ constraintsBlocked.blocked_asset_ids :=
  ⟨by decide, blocked_assets_never_on_trips wdBlocked _ constraintsBlocked _ _ _ (by decide)⟩

theorem snd_mem_of_mem_enumFrom {α : Type} :
    ∀ (l : List α) (n : Nat) (p : Nat × α), p ∈ l.enumFrom n → p.2 ∈ l := by
  intro l
  induction l with
  | nil =>
    intro n p h
    simp [List.enumFrom] at h
  | cons x xs ih =>
    intro n p h
    simp only [List.enumFrom, List.mem_cons] at h
    rcases h with rfl | h
    · simp
    · exact List.mem_cons_of_mem x (ih (n + 1) p h)

theorem enum_map_fst_succ {α : Type} (l : List α) :
    l.enum.map (fun p => p.1 + 1) = (List.range l.length).map (· + 1) := by
  have h : l.enum.map (fun p => p.1 + 1)
      = (l.enum.map Prod.fst).map (fun i => i + 1) := by
    rw [List.map_map]
    rfl
  rw [h, List.enum_map_fst]

theorem venueLoop_stops_map (wd : WeekData) (constraints : Constraints) :
    ∀ (l : List (Nat × Venue)) (st : GatherState) (stops0 : List TripStop),
      (∀ p ∈ l,
        (constraints.demands.filter (fun d => d.venue_id == p.2.id)).isEmpty = false) →
      (venueLoop wd constraints l st stops0).2.map (·.stop_order)
        = stops0.map (·.stop_order) ++ l.map (fun p => p.1 + 1) := by
  intro l
  induction l with
  | nil =>
    intro st stops0 _
    simp [venueLoop]
  | cons p rest ih =>
    intro st stops0 hdem
    rcases p with ⟨idx, venue⟩
    have hne : (constraints.demands.filter (fun d => d.venue_id == venue.id)).isEmpty
        = false := hdem (idx, venue) (by simp)
    unfold venueLoop
    simp only [hne, Bool.false_eq_true, if_false]
    rw [ih _ _ (fun q hq => hdem q (by simp [hq]))]
    simp

theorem buildTripWithVehicle_stops_dense (cluster : VenueCluster)
    (first_venue : Venue) (wd : WeekData) (m : DistMat) (constraints : Constraints)
    (vehicle : Vehicle) (hub : Hub) (warns0 : List String)
    (usedV usedA usedP : List String)
    (hdem : ∀ v ∈ cluster.venues,
      (constraints.demands.filter (fun d => d.venue_id == v.id)).isEmpty = false) :
    ∀ t, (buildTripWithVehicle cluster first_venue wd m constraints vehicle hub warns0
        usedV usedA usedP).trip = some t →
      t.stops.map (·.stop_order) = (List.range t.stops.length).map (· + 1) := by
  intro t ht
  unfold buildTripWithVehicle at ht
  dsimp only at ht
  rcases hvl : venueLoop wd constraints cluster.venues.enum
      ⟨usedA, (wd.assets_at_hub hub.id).filter (fun a => !usedA.contains a.id),
        [], 0, []⟩ []
    with ⟨st, trip_stops⟩
  rw [hvl] at ht
  dsimp only at ht
  split at ht
  · simp at ht
  · rcases hlegs : stopLegs m cluster.venues trip_stops
        (m.location_index hub.location) 0 0 with ⟨prev, miles0, mins0⟩
    rw [hlegs] at ht
    dsimp only at ht
    rcases hpers : _assign_personnel hub wd usedP with ⟨personnel, usedP1⟩
    rw [hpers] at ht
    dsimp only at ht
    have hstops : t.stops = trip_stops := by
      cases ht
      rfl
    have hmap := venueLoop_stops_map wd constraints cluster.venues.enum
      ⟨usedA, (wd.assets_at_hub hub.id).filter (fun a => !usedA.contains a.id),
        [], 0, []⟩ []
      (fun p hp => hdem p.2 (snd_mem_of_mem_enumFrom cluster.venues 0 p hp))
    rw [hvl] at hmap
    dsimp only at hmap
    rw [enum_map_fst_succ] at hmap
    have hlen : trip_stops.length = cluster.venues.length := by
      have := congrArg List.length hmap
      simpa using this
    rw [hstops, hmap, hlen]
    simp

theorem renumber_map_stop_order (l : List TripStop) :
    (l.enum.map (fun ks => { ks.2 with stop_order := ks.1 + 1 })).map (·.stop_order)
      = (List.range
          (l.enum.map (fun ks => { ks.2 with stop_order := ks.1 + 1 })).length).map
        (· + 1) := by
  rw [List.map_map]
  have h1 : ((fun s : TripStop => s.stop_order) ∘ fun ks : Nat × TripStop =>
      { ks.2 with stop_order := ks.1 + 1 }) = fun ks : Nat × TripStop => ks.1 + 1 := by
    funext ks
    rfl
  rw [h1]
  have h2 : (l.enum.map (fun ks : Nat × TripStop =>
      { ks.2 with stop_order := ks.1 + 1 })).length = l.length := by
    simp
  rw [h2, enum_map_fst_succ]

theorem reorder_stops_dense (tsp : TspOracle) (trip : Trip) (m : DistMat)
    (hP : trip.stops.map (·.stop_order) = (List.range trip.stops.length).map (· + 1)) :
    (_ortools_reorder_stops tsp trip m).map (·.stop_order)
      = (List.range (_ortools_reorder_stops tsp trip m).length).map (· + 1) := by
  unfold _ortools_reorder_stops
  dsimp only
  split
  · exact hP
  · split
    · exact hP
    · split
      · exact renumber_map_stop_order _
      · exact hP

theorem build_trip_stops_dense (cluster : VenueCluster) (wd : WeekData) (m : DistMat)
    (constraints : Constraints) (usedV usedA usedP : List String)
    (hdem : ∀ v ∈ cluster.venues,
      (constraints.demands.filter (fun d => d.venue_id == v.id)).isEmpty = false) :
    ∀ t, (_build_trip_for_cluster cluster wd m constraints usedV usedA usedP).trip = some t →
      t.stops.map (·.stop_order) = (List.range t.stops.length).map (· + 1) := by
  intro t ht
  unfold _build_trip_for_cluster at ht
  cases hcv : cluster.venues with
  | nil =>
    rw [hcv] at ht
    simp at ht
  | cons first_venue restVenues =>
    rw [hcv] at ht
    dsimp only at ht
    cases hnh : wd.nearest_hub first_venue with
    | none =>
      rw [hnh] at ht
      simp at ht
    | some hub0 =>
      rw [hnh] at ht
      dsimp only at ht
      cases hfv : findFreeVehicle wd hub0.id usedV with
      | some v =>
        rw [hfv] at ht
        dsimp only at ht
        exact buildTripWithVehicle_stops_dense cluster first_venue wd m constraints
          v hub0 [] usedV usedA usedP hdem t ht
      | none =>
        rw [hfv] at ht
        dsimp only at ht
        cases hch : crossHubScan wd hub0.id usedV first_venue.name with
        | none =>
          rw [hch] at ht
          simp at ht
        | some triple =>
          rcases triple with ⟨v, h, w⟩
          rw [hch] at ht
          dsimp only at ht
          exact buildTripWithVehicle_stops_dense cluster first_venue wd m constraints
            v h [w] usedV usedA usedP hdem t ht

theorem clusterFold_stops_dense (wd : WeekData) (m : DistMat)
    (constraints : Constraints) :
    ∀ (clusters : List VenueCluster) (st : PlanState),
      (∀ c ∈ clusters, ∀ v ∈ c.venues,
        (constraints.demands.filter (fun d => d.venue_id == v.id)).isEmpty = false) →
      (∀ t ∈ st.trips,
        t.stops.map (·.stop_order) = (List.range t.stops.length).map (· + 1)) →
      ∀ t ∈ (clusterFold wd m constraints clusters st).trips,
        t.stops.map (·.stop_order) = (List.range t.stops.length).map (· + 1) := by
  intro clusters
  induction clusters with
  | nil =>
    intro st _ hst t ht
    exact hst t ht
  | cons c rest ih =>
    intro st hdem hst t ht
    unfold clusterFold at ht
    dsimp only at ht
    refine ih _ (fun c' hc' => hdem c' (by simp [hc'])) ?_ t ht
    intro u hu
    rw [List.mem_append] at hu
    rcases hu with hu | hu
    · exact hst u hu
    · rcases ho : (_build_trip_for_cluster c wd m constraints st.usedV st.usedA st.usedP).trip
        with _ | u'
      · rw [ho] at hu
        simp at hu
      · rw [ho] at hu
        simp at hu
        rw [hu]
        exact build_trip_stops_dense c wd m constraints _ _ _
          (fun v hv => hdem c (by simp) v hv) u' ho

theorem mem_insertByWeightDesc {x y : VenueCluster} :
    ∀ {l : List VenueCluster}, y ∈ insertByWeightDesc x l → y = x ∨ y ∈ l := by
  intro l
  induction l with
  | nil =>
    intro h
    simpa [insertByWeightDesc] using h
  | cons z zs ih =>
    intro h
    unfold insertByWeightDesc at h
    split at h
    · rw [List.mem_cons] at h
      rcases h with h | h
      · exact Or.inl h
      · exact Or.inr h
    · rw [List.mem_cons] at h
      rcases h with h | h
      · exact Or.inr (by simp [h])
      · rcases ih h with h' | h'
        · exact Or.inl h'
        · exact Or.inr (by simp [h'])

theorem mem_sortByWeightDesc {y : VenueCluster} :
    ∀ {l : List VenueCluster}, y ∈ sortByWeightDesc l → y ∈ l := by
  intro l
  induction l with
  | nil =>
    intro h
    simp [sortByWeightDesc] at h
  | cons z zs ih =>
    intro h
    unfold sortByWeightDesc at h
    rcases mem_insertByWeightDesc (x := z) (y := y) h with h' | h'
    · simp [h']
    · exact List.mem_cons_of_mem z (ih h')

/-- C4 (amended): when every venue of every cluster has at least one demand
— the situation in which every cluster venue yields a stop — the stop-order
indices of every trip produced by the planner are dense and 1-based, before
and after TSP reordering: the k-th stop carries `stop_order = k`.  (Without
that hypothesis a stop's `stop_order` is the 1-based position of its venue in
the cluster, and a venue without demands leaves a gap; see the
counterexample.) -/
theorem planner_stop_orders_dense (wd : WeekData) (m : DistMat)
    (constraints : Constraints) (clusters : List VenueCluster) (tsp : TspOracle)
    (pre : List String)
    (hdem : ∀ c ∈ clusters, ∀ v ∈ c.venues,
      (constraints.demands.filter (fun d => d.venue_id == v.id)).isEmpty = false) :
    ∀ t ∈ (optimize_week wd m constraints clusters tsp pre).trips,
      t.stops.map (·.stop_order) = (List.range t.stops.length).map (· + 1) := by
  intro t ht
  unfold optimize_week at ht
  dsimp only at ht
  rw [List.mem_map] at ht
  rcases ht with ⟨t0, ht0, hmap⟩
  have hP0 : t0.stops.map (·.stop_order) = (List.range t0.stops.length).map (· + 1) := by
    refine clusterFold_stops_dense wd m constraints _ _ ?_ (by intro u hu; simp at hu) t0 ht0
    intro c hc v hv
    have hc1 := mem_sortByWeightDesc hc
    rw [List.mem_map] at hc1
    rcases hc1 with ⟨c0, hc0, hceq⟩
    have hv0 : v ∈ c0.venues := by
      rw [← hceq] at hv
      exact hv
    exact hdem c0 hc0 v hv0
  rw [← hmap]
  split
  · exact reorder_stops_dense tsp t0 m hP0
  · exact hP0

/-- Hub for the C4 data. -/
def hubDense : Hub := { id := "h4", name := "Hub Four", lat := 0, lng := 0 }

/-- Venue without demands, used by the C4 counterexample. -/
def venueNoDemand : Venue :=
  { id := "v-a", customer_id := none, name := "Venue A", lat := some 0, lng := some 0 }

/-- Venue with a demand, used by the C4 data. -/
def venueWithDemand : Venue :=
  { id := "v-b", customer_id := some "c4", name := "Venue B",
    lat := some 0, lng := some 1 }

/-- Game behind the C4 demand. -/
def gameDense : Game :=
  { id := "g4", customer_id := "c4", customer_name := "Cust Four",
    venue_id := some "v-b", venue := some venueWithDemand, season_year := 2025,
    week_number := 3, game_date := "2025-09-21", game_time := some "13:00" }

/-- Week data for the C4 theorems: one hub, one vehicle, one driver, one
bench at the hub. -/
def wdDense : WeekData :=
  { season_year := 2025, week_number := 3, games := [gameDense],
    assets := [
      { id := "as-4", serial_number := "S4", asset_type := "heated_bench",
        model_version := none, condition := "good", status := "at_hub",
        home_hub_id := "h4", current_hub := some "h4", current_venue_id := none,
        weight_lbs := some 150, current_branding := none }],
    vehicles := [
      { id := "veh-4", name := "Truck 4", home_hub_id := "h4",
        capacity_lbs := some 10000, status := "active" }],
    personnel := [
      { id := "p-4", name := "Drew", role := "driver", home_hub_id := "h4" }],
    hubs := [hubDense] }

/-- Constraints for the C4 theorems: a single demand at `Venue B`. -/
def constraintsDense : Constraints :=
  { demands := [
      { game := gameDense, venue_id := "v-b", customer_id := "c4",
        customer_name := "Cust Four",
        items := [
          { id := "ci4", contract_id := "ct4", customer_id := "c4",
            customer_name := "Cust Four", asset_type := "heated_bench",
            model_version := none, quantity := 1, branding_spec := none }],
        total_quantity := 1, total_weight_lbs := 150 }] }

/-- C4 counterexample: a cluster whose first venue has no demands produces a
trip whose only stop carries `stop_order = 2` — the first (k = 1) stop does
not have `stop_order = 1`, refuting density both before and after TSP
reordering (the single-stop trip is never reordered). -/
theorem stop_order_gap_counterexample :
    ((optimize_week wdDense ⟨[], fun _ _ => ⟨0, 0⟩⟩ constraintsDense
        [{ venues := [venueNoDemand, venueWithDemand] }] (fun _ => none) []).trips.map
      (fun t => t.stops.map (·.stop_order))) = [[2]] := by
  decide

/-- C4 witness: with the single-venue cluster every venue has a demand, so
`planner_stop_orders_dense` applies and its conclusion is exercised at a
concrete input. -/
theorem planner_stop_orders_dense_witness :
    (∀ c ∈ [({ venues := [venueWithDemand] } : VenueCluster)], ∀ v ∈ c.venues,
      (constraintsDense.demands.filter (fun d => d.venue_id == v.id)).isEmpty = false)
    ∧ ∀ t ∈ (optimize_week wdDense ⟨[], fun _ _ => ⟨0, 0⟩⟩ constraintsDense
        [{ venues := [venueWithDemand] }] (fun _ => none) []).trips,
      t.stops.map (·.stop_order) = (List.range t.stops.length).map (· + 1) :=
  ⟨by decide,
    planner_stop_orders_dense wdDense ⟨[], fun _ _ => ⟨0, 0⟩⟩ constraintsDense
      [{ venues := [venueWithDemand] }] (fun _ => none) [] (by decide)⟩

/-- Per-asset-type weight estimate used in capacity scoring and constraint
assembly (defaults: benches 150, shader 200, foot deck 50, else 100). -/
def weightEstimate (t : String) : ℚ :=
  if t == "heated_bench" || t == "cooling_bench" || t == "hybrid_bench" then 150
  else if t == "dragon_shader" then 200
  else if t == "heated_foot_deck" then 50
  else 100

/-- `scoring._score_distance_efficiency`.  `hav` stands for the module's
`_haversine_miles`; the bounds below hold for every `hav`. -/
def _score_distance_efficiency (hav : LatLng → LatLng → ℚ) (trip : Trip)
    (m : DistMat) : ℚ :=
  if trip.total_miles ≤ 0 then 100
  else
    match m.locations.find? (fun loc => loc.label == trip.origin_hub_name) with
    | none => 50
    | some hub_loc =>
      let max_straight_line := trip.stops.foldl (fun acc stop =>
        match m.locations.find? (fun loc => loc.label == stop.venue_name) with
        | none => acc
        | some loc => max acc (hav hub_loc loc)) 0
      if max_straight_line ≤ 0 then 50
      else
        let ratio := 2 * max_straight_line / trip.total_miles
        let adjusted := min (ratio / (77/100)) 1
        max 0 (min 100 (adjusted * 100))

/-- `scoring._score_capacity_utilization`. -/
def _score_capacity_utilization (trip : Trip) : ℚ :=
  if trip.assets.isEmpty then 0
  else
    let total_weight := (trip.assets.map (fun a => weightEstimate a.asset_type)).sum
    let utilization := total_weight / 10000
    if 1/2 ≤ utilization ∧ utilization ≤ 9/10 then 100
    else if 9/10 < utilization then max 60 (100 - (utilization - 9/10) * 200)
    else max 20 (utilization / (1/2) * 100)

/-- `scoring._score_time_efficiency`. -/
def _score_time_efficiency (trip : Trip) : ℚ :=
  if trip.total_drive_hrs ≤ 0 then 100
  else
    let ratio := trip.total_drive_hrs / 11
    if ratio ≤ 7/10 then 100
    else if ratio ≤ 9/10 then 80 + (9/10 - ratio) / (2/10) * 20
    else if ratio ≤ 1 then 50 + (1 - ratio) / (1/10) * 30
    else max 0 (50 - (ratio - 1) * 100)

/-- Penalty per relaxation action (`scoring._score_constraint_satisfaction`),
with 10 as the dict-lookup default. -/
def relaxPenalty (action : String) : ℚ :=
  if action == "relaxed_soft_constraints" then 10
  else if action == "relaxed_branding" then 20
  else if action == "split_multi_stop" then 15
  else if action == "cross_hub_assignments" then 25
  else if action == "partial_solution" then 30
  else 10

/-- `scoring._score_constraint_satisfaction`. -/
def _score_constraint_satisfaction (result : OptimizationResult) : ℚ :=
  if result.constraint_relaxations.isEmpty then 100
  else
    max 0 (100 - (result.constraint_relaxations.map (fun r => relaxPenalty r.action)).sum)

/-- `scoring._score_multi_stop_bonus`. -/
def _score_multi_stop_bonus (trip : Trip) : ℚ :=
  if trip.stops.length ≤ 1 then 50
  else if trip.stops.length == 2 then 75
  else if trip.stops.length == 3 then 90
  else 100

/-- `scoring.score_trip`: the weighted total, clamped to [0, 100] and rounded
to one decimal. -/
def score_trip (hav : LatLng → LatLng → ℚ) (trip : Trip) (m : DistMat)
    (result : OptimizationResult) : ℚ :=
  let total :=
    _score_distance_efficiency hav trip m * (40/100)
    + _score_capacity_utilization trip * (20/100)
    + _score_time_efficiency trip * (15/100)
    + _score_constraint_satisfaction result * (15/100)
    + _score_multi_stop_bonus trip * (10/100)
  roundTo1 (max 0 (min 100 total))

/-- `scoring.score_run`: scores each trip, sets the average (rounded to one
decimal), and subtracts `min(30, 5 × unassigned)` floored at 0 when
unassigned demands exist.  An empty result scores 100 without unassigned,
0 with. -/
def score_run (hav : LatLng → LatLng → ℚ) (result : OptimizationResult)
    (m : DistMat) : OptimizationResult :=
  if result.trips.isEmpty then
    { result with average_score := if result.has_unassigned then 0 else 100 }
  else
    let trips2 := result.trips.map (fun t =>
      { t with optimizer_score := score_trip hav t m result })
    let total := (trips2.map (·.optimizer_score)).sum
    let avg := roundTo1 (total / (trips2.length : ℚ))
    let avg2 :=
      if !result.unassigned_demands.isEmpty then
        max 0 (avg - min 30 ((result.unassigned_demands.length : ℚ) * 5))
      else avg
    { result with trips := trips2, average_score := avg2 }

theorem score_trip_bounds (hav : LatLng → LatLng → ℚ) (trip : Trip) (m : DistMat)
    (result : OptimizationResult) :
    0 ≤ score_trip hav trip m result ∧ score_trip hav trip m result ≤ 100 := by
  unfold score_trip
  constructor
  · exact roundTo1_nonneg (le_max_left 0 _)
  · have h1 : max 0 (min 100 (_score_distance_efficiency hav trip m * (40/100)
        + _score_capacity_utilization trip * (20/100)
        + _score_time_efficiency trip * (15/100)
        + _score_constraint_satisfaction result * (15/100)
        + _score_multi_stop_bonus trip * (10/100))) ≤ ((100 : ℤ) : ℚ) := by
      push_cast
      apply max_le
      · norm_num
      · exact min_le_left _ _
    have := roundTo1_le h1
    simpa using this

theorem list_sum_le_mul_length (l : List ℚ) (b : ℚ) (h : ∀ x ∈ l, x ≤ b) :
    l.sum ≤ (l.length : ℚ) * b := by
  induction l with
  | nil => simp
  | cons x xs ih =>
    simp only [List.sum_cons, List.length_cons]
    have hx : x ≤ b := h x (by simp)
    have hxs : xs.sum ≤ (xs.length : ℚ) * b := ih (fun y hy => h y (by simp [hy]))
    push_cast
    linarith

/-- C7: every per-trip score lies in [0, 100]; the run average equals the
mean of the trip scores rounded to one decimal, reduced by
`min(30, 5 × unassigned)` and floored at 0 when unassigned demands exist,
and therefore also lies in [0, 100]; an empty result with no unassigned
demands gets average score 100. -/
theorem scoring_bounds (hav : LatLng → LatLng → ℚ) (m : DistMat) :
    (∀ (trip : Trip) (result : OptimizationResult),
      0 ≤ score_trip hav trip m result ∧ score_trip hav trip m result ≤ 100)
    ∧ ∀ result : OptimizationResult,
        (0 ≤ (score_run hav result m).average_score
          ∧ (score_run hav result m).average_score ≤ 100)
        ∧ (result.trips = [] → result.unassigned_demands = [] →
            (score_run hav result m).average_score = 100)
        ∧ (result.trips ≠ [] →
            (score_run hav result m).average_score =
              (if result.unassigned_demands.isEmpty then
                roundTo1 ((result.trips.map (fun t => score_trip hav t m result)).sum
                  / (result.trips.length : ℚ))
              else
                max 0 (roundTo1 ((result.trips.map (fun t => score_trip hav t m result)).sum
                    / (result.trips.length : ℚ))
                  - min 30 ((result.unassigned_demands.length : ℚ) * 5)))) := by
  refine ⟨fun t r => score_trip_bounds hav t m r, ?_⟩
  intro result
  by_cases htrips : result.trips.isEmpty
  · refine ⟨?_, ?_, ?_⟩
    · unfold score_run
      rw [if_pos htrips]
      by_cases hu : result.has_unassigned
      · simp [hu]
      · simp [hu]
    · intro h1 h2
      unfold score_run
      rw [if_pos htrips]
      simp [OptimizationResult.has_unassigned, h2]
    · intro hne
      exact absurd (List.isEmpty_iff.mp htrips) hne
  · have hmean0 : 0 ≤ (result.trips.map (fun t => score_trip hav t m result)).sum
        / (result.trips.length : ℚ) := by
      apply div_nonneg
      · apply List.sum_nonneg
        intro x hx
        rw [List.mem_map] at hx
        rcases hx with ⟨t, _, rfl⟩
        exact (score_trip_bounds hav t m result).1
      · positivity
    have hlenpos : 0 < (result.trips.length : ℚ) := by
      have : result.trips ≠ [] := fun hh => htrips (by simp [hh])
      have : 0 < result.trips.length := List.length_pos.mpr this
      exact_mod_cast this
    have hmean100 : (result.trips.map (fun t => score_trip hav t m result)).sum
        / (result.trips.length : ℚ) ≤ ((100 : ℤ) : ℚ) := by
      push_cast
      rw [div_le_iff₀ hlenpos]
      have := list_sum_le_mul_length (result.trips.map (fun t => score_trip hav t m result))
        100 (by
          intro x hx
          rw [List.mem_map] at hx
          rcases hx with ⟨t, _, rfl⟩
          exact (score_trip_bounds hav t m result).2)
      simpa [mul_comm] using this
    have havg0 : 0 ≤ roundTo1 ((result.trips.map (fun t => score_trip hav t m result)).sum
        / (result.trips.length : ℚ)) := roundTo1_nonneg hmean0
    have havg100 : roundTo1 ((result.trips.map (fun t => score_trip hav t m result)).sum
        / (result.trips.length : ℚ)) ≤ 100 := by
      have := roundTo1_le hmean100
      simpa using this
    have hscore : (score_run hav result m).average_score =
        (if result.unassigned_demands.isEmpty then
          roundTo1 ((result.trips.map (fun t => score_trip hav t m result)).sum
            / (result.trips.length : ℚ))
        else
          max 0 (roundTo1 ((result.trips.map (fun t => score_trip hav t m result)).sum
              / (result.trips.length : ℚ))
            - min 30 ((result.unassigned_demands.length : ℚ) * 5))) := by
      unfold score_run
      rw [if_neg (by simp [htrips])]
      dsimp only
      rw [List.map_map]
      by_cases hu : result.unassigned_demands.isEmpty
      · simp only [hu, Bool.not_true, if_pos]
        simp
        rfl
      · have hu' : result.unassigned_demands.isEmpty = false := by
          simpa using hu
        simp only [hu', Bool.not_false, if_pos, if_neg]
        simp
        rfl
    refine ⟨?_, ?_, fun _ => hscore⟩
    · rw [hscore]
      constructor
      · by_cases hu : result.unassigned_demands.isEmpty
        · rw [if_pos hu]
          exact havg0
        · rw [if_neg hu]
          exact le_max_left 0 _
      · by_cases hu : result.unassigned_demands.isEmpty
        · rw [if_pos hu]
          exact havg100
        · rw [if_neg hu]
          apply max_le
          · norm_num
          · have hpen : (0:ℚ) ≤ min 30 ((result.unassigned_demands.length : ℚ) * 5) := by
              apply le_min
              · norm_num
              · positivity
            linarith
    · intro h1
      exact absurd h1 (by simp [List.isEmpty_iff] at htrips; simp [htrips])

/-- C7 witness: the scoring bounds applied at a concrete empty result. -/
theorem scoring_bounds_witness :
    (score_run (fun _ _ => 0) {} ⟨[], fun _ _ => ⟨0, 0⟩⟩).average_score = 100 :=
  (((scoring_bounds (fun _ _ => 0) ⟨[], fun _ _ => ⟨0, 0⟩⟩).2 {}).2.1) rfl rfl

/-- Lowercasing a string character-wise (Python `str.lower`, ASCII cases). -/
def strToLower (s : String) : String := String.mk (s.toList.map Char.toLower)

/-- Whether the first list is a prefix of the second (character lists). -/
def listStartsWith : List Char → List Char → Bool
  | [], _ => true
  | _ :: _, [] => false
  | a :: p, b :: l => a == b && listStartsWith p l

/-- Whether the first list occurs contiguously in the second (Python's
`needle in haystack`). -/
def listContainsSub (p : List Char) : List Char → Bool
  | [] => listStartsWith p []
  | l@(_ :: t) => listStartsWith p l || listContainsSub p t

/-- Python's `needle in haystack` on strings. -/
def strContainsSub (needle s : String) : Bool :=
  listContainsSub needle.toList s.toList

/-- Per-demand classification of `infeasibility._step5_classify_unassigned`:
keep reasons already containing "available", otherwise diagnose from the
inventory, vehicle and personnel data. -/
def classifyDemand (wd : WeekData) (d : UnassignedDemand) : UnassignedDemand :=
  if strContainsSub "available" (strToLower d.reason) then d
  else
    let matching := wd.assets.filter (fun a =>
      a.asset_type == d.asset_type
      && !(a.condition == "out_of_service" || a.condition == "needs_repair"))
    if matching.isEmpty then
      { d with reason := "Asset type/model not available in inventory" }
    else if matching.all (fun a => a.status != "at_hub") then
      { d with reason := "All " ++ d.asset_type ++ " assets are deployed — none at hub" }
    else if wd.vehicles.length == 0 then
      { d with reason := "No vehicle with sufficient capacity available" }
    else if (wd.personnel.filter (fun p =>
        p.role == "driver" || p.role == "lead_tech")).length == 0 then
      { d with reason := "No personnel available at nearest hub" }
    else
      { d with reason := "Insufficient resources to cover all demands this week" }

/-- `infeasibility._step5_classify_unassigned`: rewrite each unassigned
demand's reason; the list length is preserved. -/
def _step5_classify_unassigned (result : OptimizationResult) (wd : WeekData) :
    OptimizationResult :=
  { result with unassigned_demands := result.unassigned_demands.map (classifyDemand wd) }

/-- `infeasibility._is_better`: strictly fewer unassigned demands. -/
def _is_better (res old : OptimizationResult) : Bool :=
  decide (res.unassigned_demands.length < old.unassigned_demands.length)

/-- One relaxation attempt of `handle_infeasibility`: if the candidate exists
and is strictly better it becomes the best result, gets the log entry (and
step-2 warning) appended, and the cascade stops when it has zero unassigned
(the returned flag). -/
def cascadeStep (best : OptimizationResult) (cand : Option OptimizationResult)
    (entry : Relaxation) (extraWarnings : List String) :
    OptimizationResult × Bool :=
  match cand with
  | none => (best, false)
  | some result =>
    if _is_better result best then
      ({ result with
          constraint_relaxations := result.constraint_relaxations ++ [entry],
          warnings := result.warnings ++ extraWarnings },
        !result.has_unassigned)
    else (best, false)

/-- Step 6 of the cascade: mark the result partial and log the remaining
count when unassigned demands remain. -/
def _step6_finalize (best : OptimizationResult) : OptimizationResult :=
  if best.has_unassigned then
    { best with
        status := "partial",
        constraint_relaxations := best.constraint_relaxations
          ++ [⟨6, "partial_solution",
              toString best.unassigned_demands.length
                ++ " demands could not be fulfilled"⟩] }
  else best

/-- `infeasibility.handle_infeasibility`.  `s1`–`s4` are the values of
`_step1_relax_soft_constraints` … `_step4_cross_hub` on the given week data
and matrix: each of those re-runs the embedded pipeline
(`build_constraints` + `cluster_venues` + `optimize_week`) on relaxed inputs
inside a `try/except` whose failure yields `None`; quantifying over the four
optional results covers every behaviour of those re-runs, so they enter the
embedding as parameters. -/
def handle_infeasibility (wd : WeekData) (s1 s2 s3 s4 : Option OptimizationResult)
    (initial : OptimizationResult) : OptimizationResult :=
  if initial.unassigned_demands.isEmpty then initial
  else
    match cascadeStep initial s1
      ⟨1, "relaxed_soft_constraints",
        "Allowed more miles, more vehicles, relaxed hub preference"⟩ [] with
    | (b1, done1) =>
      if done1 then b1
      else
        match cascadeStep b1 s2
          ⟨2, "relaxed_branding", "Allowed unbranded or mismatched branding assets"⟩
          ["Some assets may need rebranding before deployment"] with
        | (b2, done2) =>
          if done2 then b2
          else
            match cascadeStep b2 s3
              ⟨3, "split_multi_stop", "Split multi-stop trips into individual routes"⟩
              [] with
            | (b3, done3) =>
              if done3 then b3
              else
                match cascadeStep b3 s4
                  ⟨4, "cross_hub_assignments",
                    "Allowed vehicles from distant hubs to cover nearby games"⟩ [] with
                | (b4, done4) =>
                  if done4 then b4
                  else _step6_finalize (_step5_classify_unassigned b4 wd)

theorem cascadeStep_spec {best : OptimizationResult} {cand : Option OptimizationResult}
    {e : Relaxation} {w : List String} {b : OptimizationResult} {d : Bool}
    (h : cascadeStep best cand e w = (b, d)) :
    b.unassigned_demands.length ≤ best.unassigned_demands.length
    ∧ (b = best ∨ b.unassigned_demands.length < best.unassigned_demands.length)
    ∧ (d = true → b.unassigned_demands = [])
    ∧ (best.unassigned_demands ≠ [] → d = false → b.unassigned_demands ≠ [])
    ∧ (∀ r, cand = some r → r.unassigned_demands = [] →
        best.unassigned_demands ≠ [] → d = true) := by
  unfold cascadeStep at h
  cases cand with
  | none =>
    simp at h
    rcases h with ⟨rfl, rfl⟩
    refine ⟨le_refl _, Or.inl rfl, by simp, fun h1 _ => h1, by simp⟩
  | some result =>
    dsimp only at h
    by_cases hbetter : _is_better result best = true
    · rw [if_pos hbetter] at h
      unfold _is_better at hbetter
      rw [decide_eq_true_eq] at hbetter
      cases h
      refine ⟨le_of_lt hbetter, Or.inr hbetter, ?_, ?_, ?_⟩
      · intro hd
        show result.unassigned_demands = []
        have hie : result.unassigned_demands.isEmpty = true := by
          unfold OptimizationResult.has_unassigned at hd
          simpa using hd
        exact List.isEmpty_iff.mp hie
      · intro _ hd hc
        have hie : result.unassigned_demands.isEmpty = false := by
          unfold OptimizationResult.has_unassigned at hd
          simpa using hd
        have hc2 : result.unassigned_demands = [] := hc
        rw [hc2] at hie
        simp at hie
      · intro r hr hre _
        injection hr with hr
        subst hr
        unfold OptimizationResult.has_unassigned
        rw [hre]
        simp
    · rw [if_neg hbetter] at h
      cases h
      unfold _is_better at hbetter
      rw [decide_eq_true_eq] at hbetter
      refine ⟨le_refl _, Or.inl rfl, by simp, fun h1 _ => h1, ?_⟩
      intro r hr hre hne
      exfalso
      apply hbetter
      injection hr with hr
      rw [hr, hre]
      simp only [List.length_nil]
      exact List.length_pos.mpr hne

theorem step5_spec (r : OptimizationResult) (wd : WeekData) :
    (_step5_classify_unassigned r wd).trips = r.trips
    ∧ (_step5_classify_unassigned r wd).unassigned_demands.length
      = r.unassigned_demands.length
    ∧ ((_step5_classify_unassigned r wd).unassigned_demands = []
        ↔ r.unassigned_demands = []) := by
  unfold _step5_classify_unassigned
  refine ⟨rfl, by simp, by simp⟩

theorem step6_spec (r : OptimizationResult) :
    (_step6_finalize r).trips = r.trips
    ∧ (_step6_finalize r).unassigned_demands = r.unassigned_demands := by
  unfold _step6_finalize
  split
  · exact ⟨rfl, rfl⟩
  · exact ⟨rfl, rfl⟩

/-- C1: the cascade never returns more unassigned demands than the initial
result; the best result is replaced only by a candidate with strictly fewer
unassigned demands (so the output either keeps the initial trips and
unassigned count, or strictly improves the count); and as soon as an
attempted step produces zero unassigned demands the cascade stops and
returns a result with zero unassigned demands. -/
theorem cascade_monotonic (wd : WeekData) (s1 s2 s3 s4 : Option OptimizationResult)
    (initial : OptimizationResult) :
    (handle_infeasibility wd s1 s2 s3 s4 initial).unassigned_demands.length
      ≤ initial.unassigned_demands.length
    ∧ (((handle_infeasibility wd s1 s2 s3 s4 initial).trips = initial.trips
        ∧ (handle_infeasibility wd s1 s2 s3 s4 initial).unassigned_demands.length
          = initial.unassigned_demands.length)
      ∨ (handle_infeasibility wd s1 s2 s3 s4 initial).unassigned_demands.length
        < initial.unassigned_demands.length)
    ∧ (∀ r ∈ [s1, s2, s3, s4].filterMap id, r.unassigned_demands = [] →
        (handle_infeasibility wd s1 s2 s3 s4 initial).unassigned_demands = []) := by
  unfold handle_infeasibility
  by_cases hinit : initial.unassigned_demands.isEmpty
  · rw [if_pos hinit]
    refine ⟨le_refl _, Or.inl ⟨rfl, rfl⟩, ?_⟩
    intro r _ _
    exact List.isEmpty_iff.mp hinit
  · rw [if_neg hinit]
    have hinitne : initial.unassigned_demands ≠ [] := by
      intro hc
      exact hinit (by simp [hc])
    rcases h1 : cascadeStep initial s1
      ⟨1, "relaxed_soft_constraints",
        "Allowed more miles, more vehicles, relaxed hub preference"⟩ [] with ⟨b1, done1⟩
    obtain ⟨h1le, h1cases, h1done, h1keep, h1zero⟩ := cascadeStep_spec h1
    dsimp only
    by_cases hd1 : done1 = true
    · rw [hd1]
      simp only [if_pos]
      have hz := h1done hd1
      refine ⟨by rw [hz]; simp, ?_, fun r _ _ => hz⟩
      right
      rw [hz]
      simp only [List.length_nil]
      exact List.length_pos.mpr hinitne
    · rw [Bool.not_eq_true] at hd1
      rw [hd1]
      simp only [Bool.false_eq_true, if_false]
      have hb1ne : b1.unassigned_demands ≠ [] := h1keep hinitne hd1
      rcases h2 : cascadeStep b1 s2
        ⟨2, "relaxed_branding", "Allowed unbranded or mismatched branding assets"⟩
        ["Some assets may need rebranding before deployment"] with ⟨b2, done2⟩
      obtain ⟨h2le, h2cases, h2done, h2keep, h2zero⟩ := cascadeStep_spec h2
      by_cases hd2 : done2 = true
      · rw [hd2]
        simp only [if_pos]
        have hz := h2done hd2
        refine ⟨by rw [hz]; simp, ?_, fun r _ _ => hz⟩
        right
        rw [hz]
        simp only [List.length_nil]
        exact List.length_pos.mpr hinitne
      · rw [Bool.not_eq_true] at hd2
        rw [hd2]
        simp only [Bool.false_eq_true, if_false]
        have hb2ne : b2.unassigned_demands ≠ [] := h2keep hb1ne hd2
        rcases h3 : cascadeStep b2 s3
          ⟨3, "split_multi_stop", "Split multi-stop trips into individual routes"⟩
          [] with ⟨b3, done3⟩
        obtain ⟨h3le, h3cases, h3done, h3keep, h3zero⟩ := cascadeStep_spec h3
        by_cases hd3 : done3 = true
        · rw [hd3]
          simp only [if_pos]
          have hz := h3done hd3
          refine ⟨by rw [hz]; simp, ?_, fun r _ _ => hz⟩
          right
          rw [hz]
          simp only [List.length_nil]
          exact List.length_pos.mpr hinitne
        · rw [Bool.not_eq_true] at hd3
          rw [hd3]
          simp only [Bool.false_eq_true, if_false]
          have hb3ne : b3.unassigned_demands ≠ [] := h3keep hb2ne hd3
          rcases h4 : cascadeStep b3 s4
            ⟨4, "cross_hub_assignments",
              "Allowed vehicles from distant hubs to cover nearby games"⟩ [] with ⟨b4, done4⟩
          obtain ⟨h4le, h4cases, h4done, h4keep, h4zero⟩ := cascadeStep_spec h4
          by_cases hd4 : done4 = true
          · rw [hd4]
            simp only [if_pos]
            have hz := h4done hd4
            refine ⟨by rw [hz]; simp, ?_, fun r _ _ => hz⟩
            right
            rw [hz]
            simp only [List.length_nil]
            exact List.length_pos.mpr hinitne
          · rw [Bool.not_eq_true] at hd4
            rw [hd4]
            simp only [Bool.false_eq_true, if_false]
            have hb4ne : b4.unassigned_demands ≠ [] := h4keep hb3ne hd4
            obtain ⟨h5t, h5len, h5iff⟩ := step5_spec b4 wd
            obtain ⟨h6t, h6u⟩ := step6_spec (_step5_classify_unassigned b4 wd)
            have hlenfin : (_step6_finalize (_step5_classify_unassigned b4 wd)).unassigned_demands.length
                = b4.unassigned_demands.length := by
              rw [h6u, h5len]
            refine ⟨?_, ?_, ?_⟩
            · rw [hlenfin]
              exact le_trans h4le (le_trans h3le (le_trans h2le h1le))
            · rcases h1cases with h1c | h1c
              · rcases h2cases with h2c | h2c
                · rcases h3cases with h3c | h3c
                  · rcases h4cases with h4c | h4c
                    · left
                      constructor
                      · rw [h6t, h5t, h4c, h3c, h2c, h1c]
                      · rw [hlenfin, h4c, h3c, h2c, h1c]
                    · right
                      rw [hlenfin]
                      calc b4.unassigned_demands.length
                          < b3.unassigned_demands.length := h4c
                        _ ≤ initial.unassigned_demands.length := by
                            rw [h3c, h2c, h1c]
                  · right
                    rw [hlenfin]
                    calc b4.unassigned_demands.length
                        ≤ b3.unassigned_demands.length := h4le
                      _ < b2.unassigned_demands.length := h3c
                      _ ≤ initial.unassigned_demands.length := by rw [h2c, h1c]
                · right
                  rw [hlenfin]
                  calc b4.unassigned_demands.length
                      ≤ b3.unassigned_demands.length := h4le
                    _ ≤ b2.unassigned_demands.length := h3le
                    _ < b1.unassigned_demands.length := h2c
                    _ ≤ initial.unassigned_demands.length := by rw [h1c]
              · right
                rw [hlenfin]
                calc b4.unassigned_demands.length
                    ≤ b3.unassigned_demands.length := h4le
                  _ ≤ b2.unassigned_demands.length := h3le
                  _ ≤ b1.unassigned_demands.length := h2le
                  _ < initial.unassigned_demands.length := h1c
            · intro r hr hre
              exfalso
              rw [List.mem_filterMap] at hr
              rcases hr with ⟨o, ho, hoeq⟩
              simp only [id] at hoeq
              subst hoeq
              simp only [List.mem_cons, List.not_mem_nil, or_false] at ho
              rcases ho with h' | h' | h' | h'
              · have := h1zero r h'.symm hre hinitne
                rw [hd1] at this
                exact Bool.false_ne_true this
              · have := h2zero r h'.symm hre hb1ne
                rw [hd2] at this
                exact Bool.false_ne_true this
              · have := h3zero r h'.symm hre hb2ne
                rw [hd3] at this
                exact Bool.false_ne_true this
              · have := h4zero r h'.symm hre hb3ne
                rw [hd4] at this
                exact Bool.false_ne_true this

/-- C1 witness: the cascade bound applied at a concrete input. -/
theorem cascade_monotonic_witness :
    (handle_infeasibility { season_year := 2025, week_number := 1 } none none none none
        {}).unassigned_demands.length ≤ ({} : OptimizationResult).unassigned_demands.length :=
  (cascade_monotonic { season_year := 2025, week_number := 1 } none none none none {}).1

/-- Empty distance matrix fixture used by concrete runs. -/
def matZero : DistMat := ⟨[], fun _ _ => ⟨0, 0⟩⟩

/-- Constant-zero haversine fixture used by concrete runs (single-venue
scenarios never compare distances, so any value gives the same run). -/
def havZero : LatLng → LatLng → ℚ := fun _ _ => 0

/-- TSP oracle fixture returning no solution. -/
def tspNone : TspOracle := fun _ => none

/-- `clustering._nearest_hub_distance`: minimum haversine distance from a
venue to any hub; `none` models the `float("inf")` returned for a venue
without location or an empty hub list. -/
def nearestHubDist (hav : LatLng → LatLng → ℚ) (v : Venue)
    (hubs : List LatLng) : Option ℚ :=
  match v.location with
  | none => none
  | some loc =>
    match hubs with
    | [] => none
    | h :: rest => some (rest.foldl (fun best x => min best (hav loc x)) (hav loc h))

/-- Strict key comparison with `none` as +infinity. -/
def keyLt (a b : Option ℚ) : Bool :=
  match a, b with
  | none, _ => false
  | some _, none => true
  | some x, some y => decide (x < y)

/-- Stable insertion for the descending sort of
`valid_venues.sort(key=_nearest_hub_distance, reverse=True)`: an element
moves past exactly the venues with a strictly larger key. -/
def insertDescBy (key : Venue → Option ℚ) (x : Venue) : List Venue → List Venue
  | [] => [x]
  | y :: ys =>
    if keyLt (key x) (key y) then y :: insertDescBy key x ys else x :: y :: ys

/-- Python's stable descending sort by key. -/
def sortVenuesDesc (key : Venue → Option ℚ) (l : List Venue) : List Venue :=
  l.foldr (insertDescBy key) []

/-- Python's `min(hub_locations, key=...)` (first minimal element; the caller
guarantees a non-empty list). -/
def minHubLoc (f : LatLng → ℚ) (h : LatLng) (rest : List LatLng) : LatLng :=
  rest.foldl (fun best x => if f x < f best then x else best) h

/-- Index selection of `_order_stops_nn`'s inner loop: first index strictly
improving the best distance, matrix miles when both indices resolve, else
haversine; venues without location are skipped (`none` models the initial
`float("inf")`). -/
def nnBestIdx (hav : LatLng → LatLng → ℚ) (m : DistMat) (current : LatLng)
    (remaining : List Venue) : Nat :=
  (remaining.enum.foldl (fun (acc : Nat × Option ℚ) p =>
    match p.2.location with
    | none => acc
    | some loc =>
      let d := match m.location_index current, m.location_index loc with
        | some ci, some vi => m.distance_miles ci vi
        | _, _ => hav current loc
      match acc.2 with
      | none => (p.1, some d)
      | some best => if d < best then (p.1, some d) else acc) (0, none)).1

/-- Body of `_order_stops_nn`'s while loop, with the list length as fuel. -/
def orderStopsNNGo (hav : LatLng → LatLng → ℚ) (m : DistMat) :
    Nat → LatLng → List Venue → List Venue → List Venue
  | 0, _, remaining, ordered => ordered ++ remaining
  | fuel + 1, current, remaining, ordered =>
    match remaining with
    | [] => ordered
    | _ :: _ =>
      let i := nnBestIdx hav m current remaining
      match remaining.get? i with
      | none => ordered ++ remaining
      | some v =>
        let rest := remaining.eraseIdx i
        let current2 := match v.location with
          | some loc => loc
          | none => current
        orderStopsNNGo hav m fuel current2 rest (ordered ++ [v])

/-- `clustering._order_stops_nn`. -/
def _order_stops_nn (hav : LatLng → LatLng → ℚ) (venues : List Venue)
    (start : LatLng) (m : DistMat) : List Venue :=
  if venues.length ≤ 1 then venues
  else orderStopsNNGo hav m venues.length start venues []

/-- Cluster-extension scan of `cluster_venues`: add unassigned venues within
`max_radius` of the seed, stopping at `max_stops`. -/
def extendCluster (hav : LatLng → LatLng → ℚ) (max_radius : ℚ) (max_stops : Nat)
    (seedLoc : LatLng) :
    List Venue → List Venue → List String → List Venue × List String
  | [], members, assigned => (members, assigned)
  | cand :: rest, members, assigned =>
    if assigned.contains cand.id then
      extendCluster hav max_radius max_stops seedLoc rest members assigned
    else if max_stops ≤ members.length then (members, assigned)
    else
      match cand.location with
      | none => extendCluster hav max_radius max_stops seedLoc rest members assigned
      | some cloc =>
        if hav seedLoc cloc ≤ max_radius then
          extendCluster hav max_radius max_stops seedLoc rest
            (members ++ [cand]) (cand.id :: assigned)
        else extendCluster hav max_radius max_stops seedLoc rest members assigned

/-- Main clustering loop of `cluster_venues` over the sorted valid venues. -/
def clusterLoop (hav : LatLng → LatLng → ℚ) (max_radius : ℚ) (max_stops : Nat)
    (valid : List Venue) (hubs : List LatLng) (m : DistMat) :
    List Venue → List String → List VenueCluster × List String
  | [], assigned => ([], assigned)
  | venue :: rest, assigned =>
    if assigned.contains venue.id then
      clusterLoop hav max_radius max_stops valid hubs m rest assigned
    else
      match venue.location with
      | none => clusterLoop hav max_radius max_stops valid hubs m rest assigned
      | some loc =>
        match extendCluster hav max_radius max_stops loc valid [venue]
          (venue.id :: assigned) with
        | (members, assigned2) =>
          let ordered :=
            match members.head?.bind Venue.location, hubs with
            | some center, h :: hrest =>
              _order_stops_nn hav members (minHubLoc (hav center) h hrest) m
            | _, _ => members
          let cluster : VenueCluster :=
            { venues := ordered, ordered_venue_ids := ordered.map (·.id) }
          match clusterLoop hav max_radius max_stops valid hubs m rest assigned2 with
          | (clusters, assignedF) => (cluster :: clusters, assignedF)

/-- `clustering.cluster_venues` with `_haversine_miles` abstracted as the
`hav` parameter (transcendental over floats; every concrete scenario below
is insensitive to its values). -/
def cluster_venues (hav : LatLng → LatLng → ℚ) (venues : List Venue)
    (hub_locations : List LatLng) (m : DistMat)
    (max_radius : ℚ := 150) (max_stops : Nat := 4) : List VenueCluster :=
  if venues.isEmpty then []
  else
    let valid := venues.filter (fun v => v.location.isSome)
    if valid.isEmpty then venues.map (fun v => { venues := [v] })
    else
      let sortedValid := sortVenuesDesc
        (fun v => nearestHubDist hav v hub_locations) valid
      match clusterLoop hav max_radius max_stops sortedValid hub_locations m
        sortedValid [] with
      | (clusters, assigned) =>
        clusters ++ (venues.filter (fun v => !assigned.contains v.id)).map
          (fun v => { venues := [v] })

/-- Insert into a Python set modelled as a duplicate-free list (membership
and size are the observed operations). -/
def insertNew (s : List String) (x : String) : List String :=
  if s.contains x then s else x :: s

/-- Asset-id accumulation of the week-0 loop (`global_used_asset_ids`). -/
def tripsAssetIds (trips : List Trip) (global : List String) : List String :=
  trips.foldl (fun acc t =>
    t.assets.foldl (fun acc2 a => insertNew acc2 a.asset_id) acc) global

/-- Served-pair accumulation of the week-0 loop: every stop carrying a demand
reference adds its (venue, customer) pair — with no check that the demand was
fully served. -/
def servedPairs (trips : List Trip) (served : List (String × String)) :
    List (String × String) :=
  trips.foldl (fun acc t =>
    t.stops.foldl (fun acc2 s =>
      match s.demand with
      | some d =>
        if acc2.contains (d.venue_id, d.customer_id) then acc2
        else (d.venue_id, d.customer_id) :: acc2
      | none => acc2) acc) served

/-- Accumulated state of the week-0 pass loop (`combined`). -/
structure Week0State where
  trips : List Trip
  unassigned : List UnassignedDemand
  warnings : List String
deriving Repr

/-- Pass loop of `week0.optimize_week0` with `MAX_PASSES` as fuel.  The wall
clock is modelled as a constant elapsed time of 0, so the per-pass timeout
`min(timeout, budget)` never shrinks and the budget check compares 0 with
`3 × timeout`. -/
def week0Loop (wd : WeekData) (m : DistMat) (constraints : Constraints)
    (hav : LatLng → LatLng → ℚ) (tsp : TspOracle) (timeout_ms : Int) :
    Nat → Nat → Week0State → List String → List (String × String) → Week0State
  | 0, _, combined, _, _ => combined
  | fuel + 1, pass_num, combined, global_used, served =>
    if (0 : Int) ≥ timeout_ms * 3 then
      { combined with warnings := combined.warnings
          ++ ["Time budget exceeded after " ++ toString (pass_num - 1) ++ " passes"] }
    else
      let remaining_demands := constraints.demands.filter
        (fun d => !served.contains (d.venue_id, d.customer_id))
      if remaining_demands.isEmpty then combined
      else
        let pass_constraints : Constraints :=
          { demands := remaining_demands, time_windows := [],
            max_drive_hrs := constraints.max_drive_hrs,
            setup_buffer_hours := 0, teardown_buffer_hours := 0,
            blocked_asset_ids := constraints.blocked_asset_ids,
            hub_vehicle_counts := constraints.hub_vehicle_counts,
            hub_personnel_counts := constraints.hub_personnel_counts }
        let remaining_venues := wd.game_venues.filter
          (fun v => remaining_demands.any (fun d => d.venue_id == v.id))
        let pass_clusters := cluster_venues hav remaining_venues wd.hub_locations m
        if pass_clusters.isEmpty then combined
        else
          let result := optimize_week wd m pass_constraints pass_clusters tsp global_used
          if result.trips.isEmpty then
            { combined with
                unassigned := combined.unassigned ++ result.unassigned_demands,
                warnings := combined.warnings
                  ++ ["Pass " ++ toString pass_num ++ ": No trips generated, "
                      ++ toString remaining_demands.length ++ " demands remain"] }
          else
            let combined2 := { combined with
              trips := combined.trips ++ result.trips,
              warnings := combined.warnings ++ result.warnings
                ++ ["Pass " ++ toString pass_num ++ ": "
                    ++ toString result.trips.length ++ " trips generated"] }
            let global2 := tripsAssetIds result.trips global_used
            if global2.length - global_used.length == 0 then
              { combined2 with
                  warnings := combined2.warnings
                    ++ ["Pass " ++ toString pass_num ++ ": No new assets consumed, stopping"],
                  unassigned := combined2.unassigned ++ result.unassigned_demands }
            else
              let served2 := servedPairs result.trips served
              if !result.has_unassigned then combined2
              else
                week0Loop wd m constraints hav tsp timeout_ms fuel (pass_num + 1)
                  combined2 global2 served2

/-- `week0.optimize_week0`: the multi-pass pre-season planner.  The
`_clusters` parameter mirrors the source signature, whose pass loop never
reads it (each pass re-clusters the remaining venues). -/
def optimize_week0 (wd : WeekData) (m : DistMat) (constraints : Constraints)
    (_clusters : List VenueCluster) (hav : LatLng → LatLng → ℚ) (tsp : TspOracle)
    (timeout_ms : Int := 30000) : OptimizationResult :=
  match week0Loop wd m constraints hav tsp timeout_ms 10 1 ⟨[], [], []⟩ [] [] with
  | fin =>
    { trips := fin.trips, unassigned_demands := fin.unassigned,
      warnings := fin.warnings, errors := [], constraint_relaxations := [],
      solve_time_ms := 0,
      status := if fin.unassigned.isEmpty then "completed" else "partial",
      average_score := 0 }

/-- Venue of the C2 failing input. -/
def venueW0 : Venue :=
  { id := "v0", customer_id := some "c0", name := "Venue Zero",
    lat := some 0, lng := some 0 }

/-- Week-0 game of the C2 failing input. -/
def gameW0 : Game :=
  { id := "g0", customer_id := "c0", customer_name := "Cust Zero",
    venue_id := some "v0", venue := some venueW0, season_year := 2025,
    week_number := 0, game_date := "2025-09-01", game_time := none,
    season_phase := "preseason" }

/-- Contract item of the C2 failing input: two heated benches wanted. -/
def itemW0 : ContractItem :=
  { id := "ci0", contract_id := "ct0", customer_id := "c0",
    customer_name := "Cust Zero", asset_type := "heated_bench",
    model_version := none, quantity := 2, branding_spec := none }

/-- Demand of the C2 failing input. -/
def demandW0 : Demand :=
  { game := gameW0, venue_id := "v0", customer_id := "c0",
    customer_name := "Cust Zero", items := [itemW0], total_quantity := 2,
    total_weight_lbs := 300 }

/-- Week data of the C2 failing input: only one matching bench exists, so
the single demand (quantity 2) can only ever be half-served. -/
def wdW0 : WeekData :=
  { season_year := 2025, week_number := 0, games := [gameW0],
    contract_items := [itemW0],
    assets := [
      { id := "as-0", serial_number := "SN0", asset_type := "heated_bench",
        model_version := none, condition := "good", status := "at_hub",
        home_hub_id := "h0", current_hub := some "h0", current_venue_id := none,
        weight_lbs := some 150, current_branding := none }],
    vehicles := [
      { id := "veh-0", name := "Truck 0", home_hub_id := "h0",
        capacity_lbs := some 10000, status := "active" }],
    personnel := [
      { id := "p-0", name := "Di", role := "driver", home_hub_id := "h0" }],
    hubs := [{ id := "h0", name := "Hub Zero", lat := 0, lng := 0 }] }

/-- Constraints of the C2 failing input (week 0: no time windows). -/
def constraintsW0 : Constraints :=
  { demands := [demandW0], setup_buffer_hours := 0, teardown_buffer_hours := 0 }

/-- Pass-1 constraints as the week-0 loop builds them for `constraintsW0`. -/
def pass1ConstraintsW0 : Constraints :=
  { demands := [demandW0], time_windows := [], max_drive_hrs := 11,
    setup_buffer_hours := 0, teardown_buffer_hours := 0,
    blocked_asset_ids := [], hub_vehicle_counts := [], hub_personnel_counts := [] }

/-- C2: evaluation of the multi-pass week-0 planner at the failing input.
Pass 1 serves only 1 of the 2 demanded benches (its result carries an
"Only 1 of 2" unassigned record), yet the served-set update marks the
(venue, customer) pair as served because a stop references the demand.  The
pair is therefore excluded from pass 2, the loop exits with the shortfall
dropped, and the run reports status "completed" with no unassigned demands
although only 1 of 2 demanded units was delivered — contradicting the claim
(and the source's own "Mark fully served demands" comment) that only fully
served pairs are excluded. -/
theorem week0_partial_serve_dropped :
    (optimize_week0 wdW0 matZero constraintsW0 [] havZero tspNone 30000).status
      = "completed"
    ∧ (optimize_week0 wdW0 matZero constraintsW0 [] havZero tspNone
        30000).unassigned_demands = []
    ∧ ((optimize_week0 wdW0 matZero constraintsW0 [] havZero tspNone 30000).trips.map
        (fun t => t.assets.length)).sum = 1
    ∧ demandW0.total_quantity = 2
    ∧ (optimize_week wdW0 matZero pass1ConstraintsW0
        (cluster_venues havZero [venueW0] wdW0.hub_locations matZero) tspNone
        []).unassigned_demands.length = 1
    ∧ servedPairs (optimize_week wdW0 matZero pass1ConstraintsW0
        (cluster_venues havZero [venueW0] wdW0.hub_locations matZero) tspNone
        []).trips [] = [("v0", "c0")] := by
  refine ⟨?_, ?_, ?_, ?_, ?_, ?_⟩ <;> decide

/-- Post-game disposition decision (`lookahead.Disposition`). -/
structure Disposition where
  action : String
  requires_hub_return : Bool
  hub_return_reason : Option String := none
  next_venue_id : Option String := none
  next_venue_name : Option String := none
deriving Repr, DecidableEq

/-- `lookahead._find_next_week_game_for_customer`. -/
def _find_next_week_game_for_customer (customer_id : String) (games : List Game) :
    Option Game :=
  games.find? (fun g => g.customer_id == customer_id)

/-- `lookahead._find_nearby_game_next_week`: nearest next-week game within
`max_distance` miles (first strict improvement wins, `none` models the
initial infinity). -/
def _find_nearby_game_next_week (hav : LatLng → LatLng → ℚ) (venue : Venue)
    (games : List Game) (max_distance : ℚ := 200) : Option Game :=
  match venue.location with
  | none => none
  | some loc =>
    (games.foldl (fun (acc : Option Game × Option ℚ) g =>
      match g.venue with
      | none => acc
      | some gv =>
        match gv.location with
        | none => acc
        | some gloc =>
          let d := hav loc gloc
          match acc.2 with
          | none => if d < max_distance then (some g, some d) else acc
          | some best =>
            if d < max_distance ∧ d < best then (some g, some d) else acc)
      (none, none)).1

/-- Shared tail of `determine_disposition`: the nearby-game check followed by
the leave-on-site default, reached whenever no earlier branch returned. -/
def dispositionFallback (hav : LatLng → LatLng → ℚ) (venue : Option Venue)
    (next_week_games : List Game) : Disposition :=
  match venue with
  | some v =>
    match _find_nearby_game_next_week hav v next_week_games with
    | some nearby =>
      match nearby.venue with
      | some nv =>
        ⟨"reroute_to_next_venue", false, none, nearby.venue_id, some nv.name⟩
      | none => ⟨"leave_on_site", false, none, none, none⟩
    | none => ⟨"leave_on_site", false, none, none, none⟩
  | none => ⟨"leave_on_site", false, none, none, none⟩

/-- Python's `customer_id or (demand.customer_id if demand else None)`:
the explicit argument wins when truthy (non-`None`, non-empty), else the
stop's demand supplies the customer. -/
def effectiveCustId (customer_id : Option String) (stop : TripStop) :
    Option String :=
  if strTruthy customer_id then customer_id
  else
    match stop.demand with
    | some d => some d.customer_id
    | none => none

/-- `lookahead.determine_disposition`.  The `trip` and `season_year`
parameters mirror the source signature, which never reads them; the
"Next venue too far" reason's distance interpolation is abbreviated.  A
branch of the `if cust_id:` block that returns nothing falls through to the
nearby-game check, exactly as in the source. -/
def determine_disposition (hav : LatLng → LatLng → ℚ) (stop : TripStop)
    (_trip : Trip) (next_week_games : List Game) (_season_year : Int)
    (week_number : Nat) (venue : Option Venue) (customer_id : Option String) :
    Disposition :=
  if week_number == 0 then ⟨"leave_on_site", false, none, none, none⟩
  else if 18 ≤ week_number then
    ⟨"return_to_hub", true, some "End of season — all assets return to hub",
      none, none⟩
  else if next_week_games.isEmpty then ⟨"leave_on_site", false, none, none, none⟩
  else
    if strTruthy (effectiveCustId customer_id stop) then
      match _find_next_week_game_for_customer
        ((effectiveCustId customer_id stop).getD "") next_week_games with
      | some next_game =>
        if next_game.venue_id == some stop.venue_id then
          ⟨"leave_on_site", false, none, none, none⟩
        else
          match next_game.venue, venue with
          | some nv, some v =>
            match nv.location, v.location with
            | some nloc, some vloc =>
              if hav vloc nloc < 500 then
                ⟨"reroute_to_next_venue", false, none, next_game.venue_id,
                  some nv.name⟩
              else
                ⟨"return_to_hub", true, some "Next venue too far — return to hub",
                  none, none⟩
            | _, _ => dispositionFallback hav venue next_week_games
          | _, _ => dispositionFallback hav venue next_week_games
      | none => ⟨"leave_on_site", false, none, none, none⟩
    else dispositionFallback hav venue next_week_games

/-- The disposition `determine_post_game_disposition` computes for a stop:
venue and customer id are taken from the stop's demand reference. -/
def dispositionFor (hav : LatLng → LatLng → ℚ) (trip : Trip)
    (next_week_games : List Game) (season_year : Int) (week_number : Nat)
    (stop : TripStop) : Disposition :=
  determine_disposition hav stop trip next_week_games season_year week_number
    (stop.demand.bind (fun d => d.game.venue))
    (stop.demand.map (·.customer_id))

/-- Field update `determine_post_game_disposition` applies to each stop. -/
def updateStopDisposition (hav : LatLng → LatLng → ℚ) (trip : Trip)
    (next_week_games : List Game) (season_year : Int) (week_number : Nat)
    (stop : TripStop) : TripStop :=
  { stop with
      requires_hub_return :=
        (dispositionFor hav trip next_week_games season_year week_number
          stop).requires_hub_return,
      hub_return_reason :=
        (dispositionFor hav trip next_week_games season_year week_number
          stop).hub_return_reason }

/-- Reroute warnings appended by `determine_post_game_disposition`, in
iteration order. -/
def postGameWarnings (hav : LatLng → LatLng → ℚ) (trips : List Trip)
    (next_week_games : List Game) (season_year : Int) (week_number : Nat) :
    List String :=
  trips.foldl (fun acc trip =>
    trip.stops.foldl (fun acc2 stop =>
      let disp := dispositionFor hav trip next_week_games season_year week_number stop
      if disp.action == "reroute_to_next_venue" then
        acc2 ++ [stop.venue_name ++ ": Reroute assets to "
          ++ disp.next_venue_name.getD "next venue" ++ " for next week"]
      else acc2) acc) []

/-- `lookahead.determine_post_game_disposition`: set each stop's
`requires_hub_return` and `hub_return_reason` from its disposition, warning
about reroutes. -/
def determine_post_game_disposition (hav : LatLng → LatLng → ℚ)
    (result : OptimizationResult) (next_week_games : List Game)
    (season_year : Int) (week_number : Nat) : OptimizationResult :=
  { result with
      trips := result.trips.map (fun trip =>
        { trip with
            stops := trip.stops.map
              (updateStopDisposition hav trip next_week_games season_year
                week_number) }),
      warnings := result.warnings
        ++ postGameWarnings hav result.trips next_week_games season_year
          week_number }

/-- The C10 invariant on a single disposition value. -/
def dispOK (d : Disposition) : Prop :=
  (d.requires_hub_return = true ↔ d.action = "return_to_hub")
  ∧ (d.hub_return_reason ≠ none ↔ d.action = "return_to_hub")

instance (d : Disposition) : Decidable (dispOK d) := by
  unfold dispOK
  infer_instance

theorem dispOK_not_hub {d : Disposition} (h1 : ¬d.action = "return_to_hub")
    (h2 : d.requires_hub_return = false) (h3 : d.hub_return_reason = none) :
    dispOK d := by
  refine ⟨⟨fun hr => ?_, fun ha => absurd ha h1⟩, ⟨fun hn => ?_, fun ha => absurd ha h1⟩⟩
  · rw [h2] at hr
    exact absurd hr (by simp)
  · rw [h3] at hn
    exact absurd rfl hn

theorem dispositionFallback_ok (hav : LatLng → LatLng → ℚ) (venue : Option Venue)
    (games : List Game) : dispOK (dispositionFallback hav venue games) := by
  unfold dispositionFallback
  split
  · split
    · split
      · exact dispOK_not_hub (by simp) rfl rfl
      · exact dispOK_not_hub (by simp) rfl rfl
    · exact dispOK_not_hub (by simp) rfl rfl
  · exact dispOK_not_hub (by simp) rfl rfl

theorem determine_disposition_ok (hav : LatLng → LatLng → ℚ) (stop : TripStop)
    (trip : Trip) (games : List Game) (sy : Int) (wk : Nat)
    (venue : Option Venue) (customer_id : Option String) :
    dispOK (determine_disposition hav stop trip games sy wk venue customer_id) := by
  unfold determine_disposition
  split
  · exact dispOK_not_hub (by simp) rfl rfl
  · split
    · decide
    · split
      · exact dispOK_not_hub (by simp) rfl rfl
      · split
        · split
          · split
            · exact dispOK_not_hub (by simp) rfl rfl
            · split
              · split
                · split
                  · exact dispOK_not_hub (by simp) rfl rfl
                  · decide
                · apply dispositionFallback_ok
              · apply dispositionFallback_ok
          · exact dispOK_not_hub (by simp) rfl rfl
        · apply dispositionFallback_ok

theorem determine_disposition_ignores_update (hav : LatLng → LatLng → ℚ)
    (trip trip2 : Trip) (games : List Game) (sy : Int) (wk : Nat)
    (stop : TripStop) :
    dispositionFor hav trip2 games sy wk
        (updateStopDisposition hav trip games sy wk stop)
      = dispositionFor hav trip games sy wk stop := rfl

/-- C10: a disposition requires a hub return exactly when its action is
`return_to_hub`, and carries a non-null hub-return reason exactly then; and
after `determine_post_game_disposition`, every stop's `requires_hub_return`
and `hub_return_reason` reflect exactly whether that stop's disposition was
`return_to_hub`. -/
theorem disposition_hub_return_iff (hav : LatLng → LatLng → ℚ) :
    (∀ (stop : TripStop) (trip : Trip) (games : List Game) (sy : Int) (wk : Nat)
      (venue : Option Venue) (customer_id : Option String),
      dispOK (determine_disposition hav stop trip games sy wk venue customer_id))
    ∧ ∀ (result : OptimizationResult) (games : List Game) (sy : Int) (wk : Nat),
        ∀ trip ∈ (determine_post_game_disposition hav result games sy wk).trips,
          ∀ stop ∈ trip.stops,
            (stop.requires_hub_return = true
              ↔ (dispositionFor hav trip games sy wk stop).action = "return_to_hub")
            ∧ (stop.hub_return_reason ≠ none
              ↔ (dispositionFor hav trip games sy wk stop).action = "return_to_hub") := by
  constructor
  · intro stop trip games sy wk venue customer_id
    exact determine_disposition_ok hav stop trip games sy wk venue customer_id
  · intro result games sy wk trip htrip stop hstop
    unfold determine_post_game_disposition at htrip
    dsimp only at htrip
    rw [List.mem_map] at htrip
    rcases htrip with ⟨trip0, htrip0, rfl⟩
    dsimp only at hstop
    rw [List.mem_map] at hstop
    rcases hstop with ⟨stop0, hstop0, rfl⟩
    rw [determine_disposition_ignores_update]
    unfold updateStopDisposition
    have hok := determine_disposition_ok hav stop0 trip0 games sy wk
      (stop0.demand.bind (fun d => d.game.venue)) (stop0.demand.map (·.customer_id))
    exact hok

/-- Fixture trip for the C10 witness. -/
def tripFixture : Trip :=
  { vehicle_id := "vx", vehicle_name := "VX", origin_hub_id := "hx",
    origin_hub_name := "HX" }

/-- C10 witness: the invariant applied at a concrete week-18 stop. -/
theorem disposition_hub_return_iff_witness :
    dispOK (determine_disposition havZero
      ⟨"v1", "V1", 1, none, none, "deliver", false, none, none⟩ tripFixture []
      2025 18 none none) :=
  (disposition_hub_return_iff havZero).1
    ⟨"v1", "V1", 1, none, none, "deliver", false, none, none⟩ tripFixture []
    2025 18 none none

/-- `math.radians` over the reals. -/
noncomputable def radiansR (deg : ℝ) : ℝ := deg * Real.pi / 180

/-- `DistanceMatrix._haversine_estimate`'s great-circle distance in miles,
modelled over `ℝ` (float trigonometry idealised as real trigonometry). -/
noncomputable def haversineMilesR (a b : LatLng) : ℝ :=
  2 * 3959 * Real.arcsin (Real.sqrt
    (Real.sin (radiansR ((b.lat : ℝ) - (a.lat : ℝ)) / 2) ^ 2
      + Real.cos (radiansR (a.lat : ℝ)) * Real.cos (radiansR (b.lat : ℝ))
        * Real.sin (radiansR ((b.lng : ℝ) - (a.lng : ℝ)) / 2) ^ 2))

/-- `DistanceMatrix._haversine_estimate`: road distance = great circle × 1.3,
duration = road / 50 mph × 60 minutes, each rounded to one decimal. -/
noncomputable def haversine_estimate (a b : LatLng) : ℝ × ℝ :=
  (roundTo1 (haversineMilesR a b * (13/10)),
    roundTo1 (haversineMilesR a b * (13/10) / 50 * 60))

/-- `DistanceMatrix.get` when the provider is disabled and no cache entries
apply: `get_distance_matrix` initialises the diagonal to (0, 0) and step 5
fills every other cell with the haversine estimate, so `get` returns exactly
these values.  Out-of-range indices (on which the source raises) are read
with a default location; the theorems below restrict to valid indices. -/
noncomputable def fallbackMatrixGet (locs : List LatLng) (i j : Nat) : ℝ × ℝ :=
  if i = j then (0, 0)
  else haversine_estimate (locs.getD i ⟨0, 0, ""⟩) (locs.getD j ⟨0, 0, ""⟩)

theorem haversineMilesR_nonneg (a b : LatLng) : 0 ≤ haversineMilesR a b := by
  unfold haversineMilesR
  have h1 : 0 ≤ Real.arcsin (Real.sqrt
      (Real.sin (radiansR ((b.lat : ℝ) - (a.lat : ℝ)) / 2) ^ 2
        + Real.cos (radiansR (a.lat : ℝ)) * Real.cos (radiansR (b.lat : ℝ))
          * Real.sin (radiansR ((b.lng : ℝ) - (a.lng : ℝ)) / 2) ^ 2)) :=
    Real.arcsin_nonneg.mpr (Real.sqrt_nonneg _)
  positivity

theorem bankersRound_eq_zero {α : Type} [LinearOrderedField α] [FloorRing α]
    {q : α} (h0 : 0 ≤ q) (h1 : q < 1/2) : bankersRound q = 0 := by
  have hfl : ⌊q⌋ = 0 := by
    rw [Int.floor_eq_zero_iff]
    constructor
    · exact h0
    · linarith
  unfold bankersRound
  rw [hfl]
  simp only [Int.cast_zero, sub_zero]
  rw [if_pos h1]

theorem roundTo1_eq_zero {α : Type} [LinearOrderedField α] [FloorRing α]
    {q : α} (h0 : 0 ≤ q) (h1 : q < 1/20) : roundTo1 q = 0 := by
  unfold roundTo1
  rw [bankersRound_eq_zero (by positivity) (by linarith)]
  simp

/-- C9 (amended): with the provider disabled and an empty cache, every
off-diagonal `get(i, j)` over valid indices returns exactly the haversine
fallback (great-circle miles × 1.3 road factor; duration = road miles / 50
mph × 60 minutes; each rounded to one decimal), whose miles and minutes are
nonnegative — strict positivity fails, because sufficiently close (yet
unequal at six decimals) locations round to 0.0; the diagonal is (0, 0). -/
theorem fallback_matrix_spec (locs : List LatLng) (i j : Nat)
    (_hi : i < locs.length) (_hj : j < locs.length) :
    (i ≠ j →
      fallbackMatrixGet locs i j
        = haversine_estimate (locs.getD i ⟨0, 0, ""⟩) (locs.getD j ⟨0, 0, ""⟩)
      ∧ 0 ≤ (fallbackMatrixGet locs i j).1
      ∧ 0 ≤ (fallbackMatrixGet locs i j).2)
    ∧ fallbackMatrixGet locs i i = (0, 0) := by
  constructor
  · intro hij
    have hget : fallbackMatrixGet locs i j
        = haversine_estimate (locs.getD i ⟨0, 0, ""⟩) (locs.getD j ⟨0, 0, ""⟩) := by
      unfold fallbackMatrixGet
      rw [if_neg hij]
    refine ⟨hget, ?_, ?_⟩
    · rw [hget]
      unfold haversine_estimate
      dsimp only
      exact roundTo1_nonneg (mul_nonneg (haversineMilesR_nonneg _ _) (by norm_num))
    · rw [hget]
      unfold haversine_estimate
      dsimp only
      apply roundTo1_nonneg
      have h0 := haversineMilesR_nonneg (locs.getD i ⟨0, 0, ""⟩) (locs.getD j ⟨0, 0, ""⟩)
      have heq : haversineMilesR (locs.getD i ⟨0, 0, ""⟩) (locs.getD j ⟨0, 0, ""⟩)
            * (13/10) / 50 * 60
          = haversineMilesR (locs.getD i ⟨0, 0, ""⟩) (locs.getD j ⟨0, 0, ""⟩)
            * (39/25) := by
        ring
      rw [heq]
      exact mul_nonneg h0 (by norm_num)
  · unfold fallbackMatrixGet
    rw [if_pos rfl]

/-- C9 witness: the amended matrix contract at two concrete distinct
locations and on the diagonal. -/
theorem fallback_matrix_spec_witness :
    (0 : Nat) < 2 ∧ (1 : Nat) < 2
    ∧ (0 ≠ 1 →
      fallbackMatrixGet [⟨0, 0, "a"⟩, ⟨10, 10, "b"⟩] 0 1
        = haversine_estimate ⟨0, 0, "a"⟩ ⟨10, 10, "b"⟩
      ∧ 0 ≤ (fallbackMatrixGet [⟨0, 0, "a"⟩, ⟨10, 10, "b"⟩] 0 1).1
      ∧ 0 ≤ (fallbackMatrixGet [⟨0, 0, "a"⟩, ⟨10, 10, "b"⟩] 0 1).2)
    ∧ fallbackMatrixGet [⟨0, 0, "a"⟩, ⟨10, 10, "b"⟩] 0 0 = (0, 0) :=
  ⟨by norm_num, by norm_num,
    (fallback_matrix_spec [⟨0, 0, "a"⟩, ⟨10, 10, "b"⟩] 0 1
      (by norm_num) (by norm_num)).1,
    (fallback_matrix_spec [⟨0, 0, "a"⟩, ⟨10, 10, "b"⟩] 0 0
      (by norm_num) (by norm_num)).2⟩

theorem haversine_tiny :
    haversineMilesR ⟨0, 0, "a"⟩ ⟨0, 1/1000000, "b"⟩ = 7918 * (Real.pi / 360000000) := by
  have hx0 : (0 : ℝ) ≤ Real.pi / 360000000 := by positivity
  have hxhalf : Real.pi / 360000000 ≤ Real.pi / 2 := by
    have hpi := Real.pi_pos
    rw [div_le_div_iff₀ (by norm_num) (by norm_num)]
    nlinarith
  have hsin0 : 0 ≤ Real.sin (Real.pi / 360000000) :=
    Real.sin_nonneg_of_nonneg_of_le_pi hx0
      (le_trans hxhalf (by linarith [Real.pi_pos]))
  unfold haversineMilesR radiansR
  have hc1 : (((0 : ℚ) : ℝ)) = 0 := by norm_num
  have hc2 : (((1/1000000 : ℚ) : ℝ)) = 1/1000000 := by norm_num
  simp only [hc1, hc2]
  rw [show ((0 : ℝ) - 0) * Real.pi / 180 / 2 = 0 by ring]
  rw [show (0 : ℝ) * Real.pi / 180 = 0 by ring]
  rw [show ((1/1000000 : ℝ) - 0) * Real.pi / 180 / 2 = Real.pi / 360000000 by ring]
  rw [Real.sin_zero, Real.cos_zero]
  rw [show (0 : ℝ) ^ 2 + 1 * 1 * Real.sin (Real.pi / 360000000) ^ 2
    = Real.sin (Real.pi / 360000000) ^ 2 by ring]
  rw [Real.sqrt_sq hsin0]
  rw [Real.arcsin_sin (by linarith) hxhalf]
  ring

/-- C9 counterexample: the locations (0, 0) and (0, 1e-6) are distinct under
the matrix's 6-decimal coordinate equality (so they are distinct entries of a
unique-location list), yet the provider-disabled fallback `get(0, 1)` rounds
both road miles and minutes to 0.0 — not strictly positive. -/
theorem fallback_zero_distance_counterexample :
    latLngEq ⟨0, 0, "a"⟩ ⟨0, 1/1000000, "b"⟩ = false
    ∧ (fallbackMatrixGet [⟨0, 0, "a"⟩, ⟨0, 1/1000000, "b"⟩] 0 1).1 = 0
    ∧ (fallbackMatrixGet [⟨0, 0, "a"⟩, ⟨0, 1/1000000, "b"⟩] 0 1).2 = 0 := by
  have hroad0 : (0:ℝ) ≤ haversineMilesR ⟨0, 0, "a"⟩ ⟨0, 1/1000000, "b"⟩ * (13/10) := by
    have := haversineMilesR_nonneg ⟨0, 0, "a"⟩ ⟨0, 1/1000000, "b"⟩
    positivity
  have hroadsmall : haversineMilesR ⟨0, 0, "a"⟩ ⟨0, 1/1000000, "b"⟩ * (13/10)
      < 1/100 := by
    rw [haversine_tiny]
    have hpi := Real.pi_le_four
    have hpos := Real.pi_pos
    nlinarith
  refine ⟨?_, ?_, ?_⟩
  · norm_num [latLngEq, round6, bankersRound]
  · have : (fallbackMatrixGet [⟨0, 0, "a"⟩, ⟨0, 1/1000000, "b"⟩] 0 1).1
        = roundTo1 (haversineMilesR ⟨0, 0, "a"⟩ ⟨0, 1/1000000, "b"⟩ * (13/10)) := by
      unfold fallbackMatrixGet haversine_estimate
      norm_num
    rw [this]
    exact roundTo1_eq_zero hroad0 (by linarith)
  · have : (fallbackMatrixGet [⟨0, 0, "a"⟩, ⟨0, 1/1000000, "b"⟩] 0 1).2
        = roundTo1 (haversineMilesR ⟨0, 0, "a"⟩ ⟨0, 1/1000000, "b"⟩ * (13/10) / 50 * 60) := by
      unfold fallbackMatrixGet haversine_estimate
      norm_num
    rw [this]
    refine roundTo1_eq_zero (by positivity) ?_
    have h6 : haversineMilesR ⟨0, 0, "a"⟩ ⟨0, 1/1000000, "b"⟩ * (13/10) / 50 * 60
        = haversineMilesR ⟨0, 0, "a"⟩ ⟨0, 1/1000000, "b"⟩ * (13/10) * (6/5) := by
      ring
    rw [h6]
    linarith

end TripPlanner
